import Mathlib

/-!
Shallow embedding of the business tier of the CNAP account/pipeline
request system (`main_app/tasks.py`, data model from `main_app/models.py`).

Conventions of the embedding:
* Database tables are Lean lists; newly created rows are prepended (row
  order is immaterial to the unique-key lookups the source performs).
* Django `Model.objects.get(...)` on a unique key is `List.find?`; a
  failed `get` raises `DoesNotExist`, modelled with `Except`.
* Money fields (`FloatField` in `models.py`) are modelled as exact
  rationals: the source only adds and compares them.
* Outbound mail (`helpers/email_utils.send_email`) is a collaborator; each
  call is recorded as a `SentEmail` event carrying the sending site and
  the recipient exactly as computed by the source.
* Functions whose Python bodies can raise return `Except (Exn × DB) DB`;
  the carried `DB` is the state at the moment of the raise, since side
  effects already performed persist in the real database.
-/

/-- Configuration values read from `django.conf.settings` by the task
layer. -/
structure Settings where
  QBRC_EMAIL : String
  MAIL_HOST : String
  MAIL_FOLDER_NAME : String
deriving DecidableEq

/-- Model of `models.BaseUser`: base identity with a unique email. -/
structure BaseUser where
  first_name : String
  last_name : String
  email : String
deriving DecidableEq

/-- Model of `models.Organization`. -/
structure Organization where
  id : Nat
  name : String
deriving DecidableEq

/-- Model of `models.ResearchGroup`: a lab keyed by its unique PI email. -/
structure ResearchGroup where
  id : Nat
  pi_name : String
  pi_email : String
  organization : Option Nat
  has_harvard_appointment : Bool
  department : String
  address_lines : String
  city : String
  state : String
  postal_code : String
  country : String
deriving DecidableEq

/-- Model of `models.FinancialCoordinator`. -/
structure FinancialCoordinator where
  contact_name : String
  contact_email : String
  research_group : Nat
deriving DecidableEq

/-- Model of `models.CnapUser`: joins a base user (by its unique email) to
research groups (many-to-many, by group id). -/
structure CnapUser where
  id : Nat
  user_email : String
  research_group : List Nat
deriving DecidableEq

/-- The parsed account-request dictionary.  `parse_email_contents` with
`REQUIRED_ACCOUNT_CREATION_KEYS` guarantees every key below is present, so
the dictionary consumed by the account handlers is modelled as a record
with one string field per required key. -/
structure AccountInfo where
  FIRST_NAME : String
  LAST_NAME : String
  EMAIL : String
  PHONE : String
  PI : String
  PI_FIRST_NAME : String
  PI_LAST_NAME : String
  PI_EMAIL : String
  PI_PHONE : String
  HARVARD_APPOINTMENT : String
  ORGANIZATION : String
  DEPARTMENT : String
  FINANCIAL_CONTACT : String
  FINANCIAL_EMAIL : String
  ADDRESS : String
  CITY : String
  STATE : String
  POSTAL_CODE : String
  COUNTRY : String
deriving DecidableEq

/-- The parsed pipeline-request dictionary (`REQUIRED_PIPELINE_CREATION_KEYS`).
`NUM_OF_SAMPLE` is converted by the source with `int(...)` at its use
sites inside `calculate_total_purchase` and `fill_order`; the conversion is
modelled as already performed (no claim concerns a malformed quantity). -/
structure PipelineInfo where
  REGISTERED : String
  EMAIL : String
  PI_EMAIL : String
  HAVE_ACCT_NUM : String
  ACCT_NUM : String
  NUM_OF_SAMPLE : Int
  PIPELINE : String
  SEQ_TYPE : String
deriving DecidableEq

/-- Model of `models.PendingUser`.  The raw parsed request is stored
serialized in `info_json`; it is modelled in parsed form. -/
structure PendingUser where
  id : Nat
  is_pi : Bool
  info_json : AccountInfo
  approval_key : Option String
deriving DecidableEq

/-- Model of `models.ProcessedEmail`: the (server, folder, uid) marker. -/
structure ProcessedEmail where
  mail_server_name : String
  mail_folder_name : String
  message_uid : Nat
deriving DecidableEq

/-- Model of `models.Payment`.  `payment_amount` is nullable (null = open
commitment). -/
structure Payment where
  id : Nat
  payment_type : String
  number : String
  client : Nat
  code : String
  payment_amount : Option Rat
deriving DecidableEq

/-- Model of `models.Budget`: the running sum charged against a payment
(identified by the payment id). -/
structure Budget where
  payment : Nat
  current_sum : Rat
deriving DecidableEq

/-- Model of `models.Product`, keyed by its unique name. -/
structure Product where
  name : String
  description : String
  quantity : Int
  is_quantity_limited : Bool
  cnap_workflow_pk : Nat
  unit_cost : Rat
deriving DecidableEq

/-- Model of `models.Purchase`: `user` is the id of the owning CnapUser. -/
structure Purchase where
  id : Nat
  user : Nat
deriving DecidableEq

/-- Model of `models.Order`: `product` is the product's unique name,
`purchase` the owning purchase id. -/
structure Order where
  id : Nat
  product : String
  purchase : Nat
  quantity : Int
  order_filled : Bool
deriving DecidableEq

/-- The sending site of an outbound email (one constructor per `send_*`
helper in `tasks.py`, plus one for `notify_admins`). -/
inductive EmailKind
  | selfApprovalToPi
  | approvalToPi
  | accountPending
  | accountConfirmedToRequester
  | accountConfirmedToQbrc
  | staffNewAccount
  | existingAccount
  | registerFirst
  | associateWithPiFirst
  | registerLab
  | quoteNoPayment
  | qbrcNoPaymentNum
  | qbrcBadPipeline
  | inventoryAlertRequester
  | inventoryAlertQbrc
  | generalAlert
  | resubmitPayment
  | invalidOrder
  | adminNotice
deriving DecidableEq

/-- One call of the outbound-mail collaborator `send_email`, with the
recipient exactly as the source computes it. -/
structure SentEmail where
  kind : EmailKind
  recipient : String
deriving DecidableEq

/-- One POST to the downstream CNAP project-creation API. -/
structure ApiCall where
  client_email : String
  workflow_pk : Nat
  number_ordered : Int
deriving DecidableEq

/-- The persistent state: every table of `models.py`, the outbound-email
event log, the downstream API call log, and a fresh-id counter for
auto-increment primary keys. -/
structure DB where
  users : List BaseUser
  organizations : List Organization
  researchGroups : List ResearchGroup
  finCoords : List FinancialCoordinator
  cnapUsers : List CnapUser
  pendingUsers : List PendingUser
  processedEmails : List ProcessedEmail
  payments : List Payment
  budgets : List Budget
  products : List Product
  purchases : List Purchase
  orders : List Order
  sentEmails : List SentEmail
  apiCalls : List ApiCall
  nextId : Nat
deriving DecidableEq

/-- Python exceptions that can escape the functions modelled here. -/
inductive MailParseErr
  | noBody
  | badLine (line : String)
  | missingRequired
deriving DecidableEq

/-- Exceptions escaping the task-layer functions: indexing an empty
string, an unbound variable, a failed unique-key `get`, a payload decode
failure, and `MailParseException`. -/
inductive Exn
  | indexError
  | nameError (missing : String)
  | doesNotExist (model : String)
  | decodeError
  | mailParse (detail : MailParseErr)
deriving DecidableEq

/-- Model of `tasks.REQUIRED_ACCOUNT_CREATION_KEYS`. -/
def REQUIRED_ACCOUNT_CREATION_KEYS : List String :=
  [("FIRST_NAME"), ("LAST_NAME"), ("EMAIL"), ("PHONE"), ("PI"),
   ("PI_FIRST_NAME"), ("PI_LAST_NAME"), ("PI_EMAIL"), ("PI_PHONE"),
   ("HARVARD_APPOINTMENT"), ("ORGANIZATION"), ("DEPARTMENT"),
   ("FINANCIAL_CONTACT"), ("FINANCIAL_EMAIL"), ("ADDRESS"), ("CITY"),
   ("STATE"), ("POSTAL_CODE"), ("COUNTRY")]

/-- Model of `tasks.REQUIRED_PIPELINE_CREATION_KEYS`. -/
def REQUIRED_PIPELINE_CREATION_KEYS : List String :=
  [("REGISTERED"), ("EMAIL"), ("PI_EMAIL"), ("HAVE_ACCT_NUM"),
   ("ACCT_NUM"), ("NUM_OF_SAMPLE"), ("PIPELINE"), ("SEQ_TYPE")]

/-- Model of `tasks.ACCOUNT_REQUEST`. -/
def ACCOUNT_REQUEST : String := "account request"

/-- Model of `tasks.PIPELINE_REQUEST`. -/
def PIPELINE_REQUEST : String := "pipeline request"

/-- The raw HTML payload handed to `parse_email_contents`.  The bs4
body-tag extraction is abstracted: `body` is the text of the first body
tag when one exists (`none` models a payload with no body section). -/
structure Payload where
  body : Option String
deriving DecidableEq

/-- Model of Python `str.split` on the newline separator (empty parts
preserved), written by structural recursion over the characters. -/
def splitLines : List Char → List (List Char)
  | [] => [[]]
  | c :: cs =>
    if c = '\n' then [] :: splitLines cs
    else
      match splitLines cs with
      | [] => [[c]]
      | l :: ls => (c :: l) :: ls

/-- Model of Python `str.strip`: drop whitespace from both ends. -/
def trimChars (l : List Char) : List Char :=
  ((l.dropWhile Char.isWhitespace).reverse.dropWhile Char.isWhitespace).reverse

/-- String-level wrapper of `trimChars`. -/
def pyStrip (s : String) : String :=
  (trimChars s.toList).asString

/-- Model of Python `str.lower`. -/
def pyLower (s : String) : String :=
  (s.toList.map Char.toLower).asString

/-- Model of Python `s.lower()[0]`: `none` models the `IndexError` raised
on an empty string. -/
def pyLowerFirst (s : String) : Option Char :=
  (s.toList.map Char.toLower).head?

/-- Helper of `pyToInt`: accumulate decimal digits, failing on any
non-digit character. -/
def digitsToNatAux : List Char → Nat → Option Nat
  | [], acc => some acc
  | c :: cs, acc =>
    if c.isDigit then digitsToNatAux cs (acc * 10 + (c.toNat - 48)) else none

/-- Digits of a non-empty all-digit list, else `none`. -/
def digitsToNat : List Char → Option Nat
  | [] => none
  | l => digitsToNatAux l 0

/-- Model of Python `int(s)` for plain decimal strings (`none` models the
`ValueError` on malformed input). -/
def pyToInt (s : String) : Option Int :=
  match s.toList with
  | '-' :: rest => (digitsToNat rest).map (fun n => -(n : Int))
  | l => (digitsToNat l).map (fun n => (n : Int))

/-- Model of the line preprocessing inside `parse_email_contents`:
the Python comprehension strips each line of the body text and keeps the
non-empty ones. -/
def contentLines (text : String) : List String :=
  ((splitLines text.toList).map (fun l => (trimChars l).asString)).filter
    (fun x => 0 < x.length)

/-- Model of Python `x.split(chr(58), 1)` followed by two-element unpack:
splits on the first colon only; `none` when the line has no colon (the
unpack raises `ValueError` there).  The source re-strips `x` before
splitting, a no-op since `contentLines` already stripped it. -/
def splitAtFirstColon : List Char → Option (List Char × List Char)
  | [] => none
  | c :: cs =>
    if c = ':' then some ([], cs)
    else
      match splitAtFirstColon cs with
      | none => none
      | some kv => some (c :: kv.1, kv.2)

/-- String-level wrapper of `splitAtFirstColon`. -/
def splitFirstColon (x : String) : Option (String × String) :=
  (splitAtFirstColon x.toList).map (fun kv => (kv.1.asString, kv.2.asString))

/-- Membership test of a key in the accumulated dictionary. -/
def dictContains (d : List (String × String)) (k : String) : Bool :=
  d.any (fun kv => kv.1 == k)

/-- Python dict assignment `d[k] = v`: overwrite in place if present,
append otherwise (insertion order preserved, as in Python). -/
def dictInsert (d : List (String × String)) (k v : String) : List (String × String) :=
  if dictContains d k then d.map (fun kv => if kv.1 == k then (k, v) else kv)
  else d ++ [(k, v)]

/-- Lookup of a key known to be present (Python `d[k]` after the parser
verified the required keys); defaults to the empty string. -/
def dictGetD (d : List (String × String)) (k : String) : String :=
  ((d.find? (fun kv => kv.1 == k)).map Prod.snd).getD ""

/-- The loop of `parse_email_contents` over the stripped non-empty lines:
split each on its first colon (raising on a colon-less line), trim key and
value, and keep the pair when the key is in the required set. -/
def parseLoop (required_keyset : List String) :
    List String → List (String × String) → Except MailParseErr (List (String × String))
  | [], info_dict => .ok info_dict
  | x :: rest, info_dict =>
    match splitFirstColon x with
    | none => .error (.badLine x)
    | some kv =>
      let key := pyStrip kv.1
      let val := pyStrip kv.2
      parseLoop required_keyset rest
        (if required_keyset.contains key then dictInsert info_dict key val else info_dict)

/-- Model of `tasks.parse_email_contents`: extract the body text, run the
line loop, then fail when `set(required).difference(keys)` is non-empty. -/
def parse_email_contents (payload : Payload) (required_keyset : List String) :
    Except MailParseErr (List (String × String)) :=
  match payload.body with
  | none => .error .noBody
  | some text =>
    match parseLoop required_keyset (contentLines text) [] with
    | .error e => .error e
    | .ok info_dict =>
      if required_keyset.any (fun k => ! dictContains info_dict k) then .error .missingRequired
      else .ok info_dict

/-- Keys recoverable from a list of lines (the key of each line that has a
colon, trimmed); used to state the parser contract. -/
def lineKeys (lines : List String) : List String :=
  lines.filterMap (fun x => (splitFirstColon x).map (fun kv => pyStrip kv.1))

/-- Assembly of the typed account record from a successfully parsed
dictionary (every required key is present at this point). -/
def AccountInfo.ofDict (d : List (String × String)) : AccountInfo :=
  { FIRST_NAME := dictGetD d ("FIRST_NAME")
    LAST_NAME := dictGetD d ("LAST_NAME")
    EMAIL := dictGetD d ("EMAIL")
    PHONE := dictGetD d ("PHONE")
    PI := dictGetD d ("PI")
    PI_FIRST_NAME := dictGetD d ("PI_FIRST_NAME")
    PI_LAST_NAME := dictGetD d ("PI_LAST_NAME")
    PI_EMAIL := dictGetD d ("PI_EMAIL")
    PI_PHONE := dictGetD d ("PI_PHONE")
    HARVARD_APPOINTMENT := dictGetD d ("HARVARD_APPOINTMENT")
    ORGANIZATION := dictGetD d ("ORGANIZATION")
    DEPARTMENT := dictGetD d ("DEPARTMENT")
    FINANCIAL_CONTACT := dictGetD d ("FINANCIAL_CONTACT")
    FINANCIAL_EMAIL := dictGetD d ("FINANCIAL_EMAIL")
    ADDRESS := dictGetD d ("ADDRESS")
    CITY := dictGetD d ("CITY")
    STATE := dictGetD d ("STATE")
    POSTAL_CODE := dictGetD d ("POSTAL_CODE")
    COUNTRY := dictGetD d ("COUNTRY") }

/-- Assembly of the typed pipeline record from a successfully parsed
dictionary.  `int(NUM_OF_SAMPLE)` is modelled by `String.toInt?` with a
zero default (no claim exercises a malformed quantity). -/
def PipelineInfo.ofDict (d : List (String × String)) : PipelineInfo :=
  { REGISTERED := dictGetD d ("REGISTERED")
    EMAIL := dictGetD d ("EMAIL")
    PI_EMAIL := dictGetD d ("PI_EMAIL")
    HAVE_ACCT_NUM := dictGetD d ("HAVE_ACCT_NUM")
    ACCT_NUM := dictGetD d ("ACCT_NUM")
    NUM_OF_SAMPLE := (pyToInt (dictGetD d ("NUM_OF_SAMPLE"))).getD 0
    PIPELINE := dictGetD d ("PIPELINE")
    SEQ_TYPE := dictGetD d ("SEQ_TYPE") }

/-- Model of `tasks.send_self_approval_email_to_pi`: recipient is the PI
email stored in the pending user's info. -/
def send_self_approval_email_to_pi (p : PendingUser) (db : DB) : DB :=
  { db with sentEmails := { kind := .selfApprovalToPi, recipient := p.info_json.PI_EMAIL } :: db.sentEmails }

/-- Model of `tasks.send_approval_email_to_pi`: recipient is the PI email
stored in the pending user's info. -/
def send_approval_email_to_pi (p : PendingUser) (db : DB) : DB :=
  { db with sentEmails := { kind := .approvalToPi, recipient := p.info_json.PI_EMAIL } :: db.sentEmails }

/-- Model of `tasks.send_account_pending_email_to_requester`: recipient is
the requester email stored in the pending user's info. -/
def send_account_pending_email_to_requester (p : PendingUser) (db : DB) : DB :=
  { db with sentEmails := { kind := .accountPending, recipient := p.info_json.EMAIL } :: db.sentEmails }

/-- Model of `tasks.send_account_confirmed_email_to_requester`. -/
def send_account_confirmed_email_to_requester (p : PendingUser) (db : DB) : DB :=
  { db with sentEmails := { kind := .accountConfirmedToRequester, recipient := p.info_json.EMAIL } :: db.sentEmails }

/-- Model of `tasks.send_account_confirmed_email_to_qbrc`: recipient is
`settings.QBRC_EMAIL`. -/
def send_account_confirmed_email_to_qbrc (cfg : Settings) (_p : PendingUser) (db : DB) : DB :=
  { db with sentEmails := { kind := .accountConfirmedToQbrc, recipient := cfg.QBRC_EMAIL } :: db.sentEmails }

/-- Model of `tasks.inform_staff_of_new_account`: recipient is
`settings.QBRC_EMAIL`. -/
def inform_staff_of_new_account (cfg : Settings) (_p : PendingUser) (db : DB) : DB :=
  { db with sentEmails := { kind := .staffNewAccount, recipient := cfg.QBRC_EMAIL } :: db.sentEmails }

/-- Model of `tasks.inform_user_of_existing_account`.  The recipient the
source passes to `send_email` is `settings.QBRC_EMAIL` (not the
requester's address, although the message body addresses the requester). -/
def inform_user_of_existing_account (cfg : Settings) (_info : AccountInfo) (db : DB) : DB :=
  { db with sentEmails := { kind := .existingAccount, recipient := cfg.QBRC_EMAIL } :: db.sentEmails }

/-- Model of `tasks.handle_exception`: `notify_admins` emails every staff
user; modelled as a single admin-notice event. -/
def handle_exception (_cfg : Settings) (_ex : Exn) (db : DB) : DB :=
  { db with sentEmails := { kind := .adminNotice, recipient := "admins" } :: db.sentEmails }

/-- Model of `tasks.check_for_pi_account`: unique-key lookup of a
research group by the PI email taken from the request dictionary. -/
def check_for_pi_account (db : DB) (pi_email : String) : Option ResearchGroup :=
  db.researchGroups.find? (fun rg => rg.pi_email == pi_email)

/-- Model of `tasks.determine_if_existing_user`: lookup of the base user
by the requester email. -/
def determine_if_existing_user (db : DB) (info : AccountInfo) : Option BaseUser :=
  db.users.find? (fun u => u.email == info.EMAIL)

/-- Lookup of the CnapUser association between a base user (by email) and
a research group, mirroring `CnapUser.objects.get(user=..., research_group=...)`. -/
def findCnapUser (db : DB) (user_email : String) (rgid : Nat) : Option CnapUser :=
  db.cnapUsers.find? (fun c => c.user_email == user_email && c.research_group.contains rgid)

/-- Model of `tasks.is_new_email`. -/
def is_new_email (db : DB) (mail_server folder : String) (email_uid : Nat) : Bool :=
  (db.processedEmails.filter (fun p =>
    p.mail_server_name == mail_server && p.mail_folder_name == folder &&
    p.message_uid == email_uid)).length == 0

/-- Abstract stand-in for the random approval token of
`tasks.add_approval_key_to_pending_user` (sha256 of the PI email plus a
fresh uuid salt); the claims only depend on the key being non-null. -/
def approvalKeyFor (pk : Nat) : String :=
  ("approval-key-") ++ toString pk

/-- Model of `tasks.add_approval_key_to_pending_user`: set the key on the
instance and save it (update the row with that primary key). -/
def add_approval_key_to_pending_user (p : PendingUser) (db : DB) : PendingUser × DB :=
  let p2 := { p with approval_key := some (approvalKeyFor p.id) }
  (p2, { db with pendingUsers := db.pendingUsers.map (fun q => if q.id == p.id then p2 else q) })

/-- Model of `tasks.instantiate_new_research_group`: create the optional
Organization, the ResearchGroup, its FinancialCoordinator, a base user for
the PI, and a CnapUser associating the PI with the new group. -/
def instantiate_new_research_group (info : AccountInfo) (db : DB) : ResearchGroup × DB :=
  let orgStep : Option Nat × DB :=
    if 0 < info.ORGANIZATION.length then
      (some db.nextId,
       { db with organizations := { id := db.nextId, name := info.ORGANIZATION } :: db.organizations,
                 nextId := db.nextId + 1 })
    else (none, db)
  let org := orgStep.1
  let db1 := orgStep.2
  let rg : ResearchGroup :=
    { id := db1.nextId
      organization := org
      pi_email := info.PI_EMAIL
      pi_name := info.PI_FIRST_NAME ++ (" ") ++ info.PI_LAST_NAME
      has_harvard_appointment := pyLower info.HARVARD_APPOINTMENT == ("y")
      department := info.DEPARTMENT
      address_lines := info.ADDRESS
      city := info.CITY
      state := info.STATE
      postal_code := info.POSTAL_CODE
      country := info.COUNTRY }
  let db2 := { db1 with researchGroups := rg :: db1.researchGroups, nextId := db1.nextId + 1 }
  let fc : FinancialCoordinator :=
    { contact_name := info.FINANCIAL_CONTACT, contact_email := info.FINANCIAL_EMAIL,
      research_group := rg.id }
  let db3 := { db2 with finCoords := fc :: db2.finCoords }
  let pi_user_obj : BaseUser :=
    { first_name := info.PI_FIRST_NAME, last_name := info.PI_LAST_NAME, email := info.PI_EMAIL }
  let db4 := { db3 with users := pi_user_obj :: db3.users }
  let cnap_user : CnapUser :=
    { id := db4.nextId, user_email := pi_user_obj.email, research_group := [rg.id] }
  let db5 := { db4 with cnapUsers := cnap_user :: db4.cnapUsers, nextId := db4.nextId + 1 }
  (rg, db5)

/-- Model of `tasks.pi_approve_pending_user`: the PI-approval finalizer.
Looks up the pending user by primary key, materializes the research group
if absent, and for a non-self request resolves or creates the base user,
then creates the CnapUser association and sends the two confirmed
notifications only when the (user, group) pair did not already exist. -/
def pi_approve_pending_user (cfg : Settings) (pending_user_pk : Nat) (db : DB) :
    Except (Exn × DB) DB :=
  match db.pendingUsers.find? (fun q => q.id == pending_user_pk) with
  | none => .error (.doesNotExist ("PendingUser"), db)
  | some p =>
    let info := p.info_json
    let rgStep : ResearchGroup × DB :=
      match check_for_pi_account db info.PI_EMAIL with
      | some rg => (rg, db)
      | none => instantiate_new_research_group info db
    let rg := rgStep.1
    let db1 := rgStep.2
    if p.is_pi then .ok db1
    else
      let userStep : BaseUser × DB :=
        match db1.users.find? (fun u => u.email == info.EMAIL) with
        | some u => (u, db1)
        | none =>
          let u : BaseUser :=
            { first_name := info.FIRST_NAME, last_name := info.LAST_NAME, email := info.EMAIL }
          (u, { db1 with users := u :: db1.users })
      let user_obj := userStep.1
      let db2 := userStep.2
      match findCnapUser db2 user_obj.email rg.id with
      | some _ => .ok db2
      | none =>
        let cnap_user : CnapUser :=
          { id := db2.nextId, user_email := user_obj.email, research_group := [rg.id] }
        let db3 := { db2 with cnapUsers := cnap_user :: db2.cnapUsers, nextId := db2.nextId + 1 }
        let db4 := send_account_confirmed_email_to_requester p db3
        let db5 := send_account_confirmed_email_to_qbrc cfg p db4
        .ok db5

/-- Model of `tasks.staff_approve_pending_user`: generate the approval
key, then email the PI (self request) or the PI plus the requester. -/
def staff_approve_pending_user (cfg : Settings) (pending_user_pk : Nat) (db : DB) :
    Except (Exn × DB) DB :=
  match db.pendingUsers.find? (fun q => q.id == pending_user_pk) with
  | none => .error (.doesNotExist ("PendingUser"), db)
  | some p =>
    let keyStep := add_approval_key_to_pending_user p db
    let p2 := keyStep.1
    let db1 := keyStep.2
    if p2.is_pi then .ok (send_self_approval_email_to_pi p2 db1)
    else .ok (send_account_pending_email_to_requester p2 (send_approval_email_to_pi p2 db1))

/-- Model of `tasks.handle_unknown_pi_account`: create a PendingUser
carrying the parsed info and notify the staff. -/
def handle_unknown_pi_account (cfg : Settings) (info : AccountInfo) (is_pi_request : Bool)
    (db : DB) : DB :=
  let p : PendingUser := { id := db.nextId, is_pi := is_pi_request, info_json := info, approval_key := none }
  let db1 := { db with pendingUsers := p :: db.pendingUsers, nextId := db.nextId + 1 }
  inform_staff_of_new_account cfg p db1

/-- Model of `tasks.handle_account_request_for_existing_user`: unknown
lab goes to the unknown-PI path; otherwise an already-associated user is
reminded, and an unassociated one yields a PendingUser with a
pre-generated key and an approval email to the PI (the source sends no
pending notice to the requester on this path). -/
def handle_account_request_for_existing_user (cfg : Settings) (info : AccountInfo)
    (existing_user : BaseUser) (pi_request : Bool) (research_group : Option ResearchGroup)
    (db : DB) : DB :=
  match research_group with
  | none => handle_unknown_pi_account cfg info pi_request db
  | some rg =>
    match findCnapUser db existing_user.email rg.id with
    | some _ => inform_user_of_existing_account cfg info db
    | none =>
      let p : PendingUser := { id := db.nextId, is_pi := false, info_json := info, approval_key := none }
      let db1 := { db with pendingUsers := p :: db.pendingUsers, nextId := db.nextId + 1 }
      let keyStep := add_approval_key_to_pending_user p db1
      send_approval_email_to_pi keyStep.1 keyStep.2

/-- Model of `tasks.handle_account_request_for_new_user`: unknown lab
goes to the unknown-PI path; a known lab yields a PendingUser with a
pre-generated key, an approval email to the PI and a pending notice to
the requester. -/
def handle_account_request_for_new_user (cfg : Settings) (info : AccountInfo)
    (pi_request : Bool) (research_group : Option ResearchGroup) (db : DB) : DB :=
  match research_group with
  | none => handle_unknown_pi_account cfg info pi_request db
  | some _rg =>
    let p : PendingUser := { id := db.nextId, is_pi := false, info_json := info, approval_key := none }
    let db1 := { db with pendingUsers := p :: db.pendingUsers, nextId := db.nextId + 1 }
    let keyStep := add_approval_key_to_pending_user p db1
    let db2 := send_approval_email_to_pi keyStep.1 keyStep.2
    send_account_pending_email_to_requester keyStep.1 db2

/-- Model of `tasks.handle_account_request_email`: the account-request
state machine.  The PI yes/no answer is read as
`info_dict[chr(80)+chr(73)].lower()[0]`, which raises `IndexError` on an
empty value; any first character other than the letter y selects the
non-PI branch. -/
def handle_account_request_email (cfg : Settings) (info : AccountInfo) (db : DB) :
    Except (Exn × DB) DB :=
  let existing_user := determine_if_existing_user db info
  match pyLowerFirst info.PI with
  | none => .error (.indexError, db)
  | some c =>
    let pi_request := c == 'y'
    let research_group := check_for_pi_account db info.PI_EMAIL
    if pi_request && research_group.isSome then
      .ok (inform_user_of_existing_account cfg info db)
    else
      match existing_user with
      | some u => .ok (handle_account_request_for_existing_user cfg info u pi_request research_group db)
      | none => .ok (handle_account_request_for_new_user cfg info pi_request research_group db)

/-- Model of `tasks.ask_requester_to_register_first`. -/
def ask_requester_to_register_first (email : String) (db : DB) : DB :=
  { db with sentEmails := { kind := .registerFirst, recipient := email } :: db.sentEmails }

/-- Model of `tasks.ask_requester_to_associate_with_pi_first`: the inner
`check_for_pi_account` lookup only varies the message text, not the
recipient. -/
def ask_requester_to_associate_with_pi_first (info : PipelineInfo) (db : DB) : DB :=
  { db with sentEmails := { kind := .associateWithPiFirst, recipient := info.EMAIL } :: db.sentEmails }

/-- Model of `tasks.ask_pipeline_requester_to_register_lab`. -/
def ask_pipeline_requester_to_register_lab (info : PipelineInfo) (db : DB) : DB :=
  { db with sentEmails := { kind := .registerLab, recipient := info.EMAIL } :: db.sentEmails }

/-- Model of `tasks.inform_qbrc_of_request_without_payment_number`. -/
def inform_qbrc_of_request_without_payment_number (cfg : Settings) (_info : PipelineInfo) (db : DB) : DB :=
  { db with sentEmails := { kind := .qbrcNoPaymentNum, recipient := cfg.QBRC_EMAIL } :: db.sentEmails }

/-- Model of `tasks.inform_qbrc_of_bad_pipeline_request`. -/
def inform_qbrc_of_bad_pipeline_request (cfg : Settings) (_info : PipelineInfo) (db : DB) : DB :=
  { db with sentEmails := { kind := .qbrcBadPipeline, recipient := cfg.QBRC_EMAIL } :: db.sentEmails }

/-- Model of `tasks.send_inventory_alert_to_requester`. -/
def send_inventory_alert_to_requester (info : PipelineInfo) (db : DB) : DB :=
  { db with sentEmails := { kind := .inventoryAlertRequester, recipient := info.EMAIL } :: db.sentEmails }

/-- Model of `tasks.send_inventory_alert_to_qbrc`. -/
def send_inventory_alert_to_qbrc (cfg : Settings) (_info : PipelineInfo) (db : DB) : DB :=
  { db with sentEmails := { kind := .inventoryAlertQbrc, recipient := cfg.QBRC_EMAIL } :: db.sentEmails }

/-- Model of `tasks.general_alert_to_requester`. -/
def general_alert_to_requester (info : PipelineInfo) (db : DB) : DB :=
  { db with sentEmails := { kind := .generalAlert, recipient := info.EMAIL } :: db.sentEmails }

/-- Model of `tasks.ask_user_to_resubmit_payment_info`. -/
def ask_user_to_resubmit_payment_info (info : PipelineInfo) (db : DB) : DB :=
  { db with sentEmails := { kind := .resubmitPayment, recipient := info.EMAIL } :: db.sentEmails }

/-- Model of `tasks.inform_user_of_invalid_order`. -/
def inform_user_of_invalid_order (info : PipelineInfo) (_payment_ref : Payment)
    (_rejection_reason : Option String) (db : DB) : DB :=
  { db with sentEmails := { kind := .invalidOrder, recipient := info.EMAIL } :: db.sentEmails }

/-- The two business failures `calculate_total_purchase` can raise. -/
inductive CalcExn
  | inventory
  | productDoesNotExist
deriving DecidableEq

/-- Model of `tasks.calculate_total_purchase`: resolve the product by
name (unknown name notifies the staff and raises), enforce the inventory
bound for quantity-limited products, and return the (quantity, unit cost)
pair. -/
def calculate_total_purchase (cfg : Settings) (info : PipelineInfo) (db : DB) :
    DB × Except CalcExn (Int × Rat) :=
  let quantity_ordered := info.NUM_OF_SAMPLE
  match db.products.find? (fun p => p.name == info.PIPELINE) with
  | none => (inform_qbrc_of_bad_pipeline_request cfg info db, .error .productDoesNotExist)
  | some product =>
    if product.is_quantity_limited then
      if quantity_ordered > product.quantity then (db, .error .inventory)
      else (db, .ok (quantity_ordered, product.unit_cost))
    else (db, .ok (quantity_ordered, product.unit_cost))

/-- Model of `tasks.create_budget` with its default `current_sum = 0`. -/
def create_budget (payment_ref : Payment) (db : DB) : Budget × DB :=
  let budget : Budget := { payment := payment_ref.id, current_sum := 0 }
  (budget, { db with budgets := budget :: db.budgets })

/-- The rejection reason built by
`tasks.check_that_purchase_is_valid_against_payment`; it interpolates the
order quantity, the unit cost, the prior charges and the payment ceiling
(the source formats the numbers with printf-style placeholders, modelled
with `toString`). -/
def rejectionReasonFor (qty : Int) (unit prior ceiling : Rat) : String :=
  ("The cost of the requested project exceeds the payment it is billed against.  The total cost of the order (")
    ++ toString qty ++ (" analyses at $") ++ toString unit
    ++ (" each), when added to the prior charges ($") ++ toString prior
    ++ ("), exceeded the total initial payment ($") ++ toString ceiling
    ++ (").  Please contact the QBRC to resolve this.")

/-- Model of `tasks.check_that_purchase_is_valid_against_payment`:
cost the order (inventory and unknown-product failures return a rejection
tuple), lazily create the Budget, then apply the budget rule.  Python's
`if payment_amount:` is a truthiness test, so a null amount AND a zero
amount both take the open-ended branch (always accept, no mutation). -/
def check_that_purchase_is_valid_against_payment (cfg : Settings) (info : PipelineInfo)
    (payment_ref : Payment) (db : DB) : DB × (Bool × Option String) :=
  match calculate_total_purchase cfg info db with
  | (db1, .error .inventory) =>
    (send_inventory_alert_to_qbrc cfg info db1,
     (false, some ("The requested order exceeded our inventory")))
  | (db1, .error .productDoesNotExist) =>
    (db1, (false, some ("An unexpected error occurred processing the order.  We are working to resolve this.")))
  | (db1, .ok qtyUnit) =>
    let qty := qtyUnit.1
    let unit := qtyUnit.2
    let total_cost : Rat := qty * unit
    let budgetStep : Budget × DB :=
      match db1.budgets.find? (fun b => b.payment == payment_ref.id) with
      | some b => (b, db1)
      | none => create_budget payment_ref db1
    let budget := budgetStep.1
    let db2 := budgetStep.2
    match payment_ref.payment_amount with
    | none => (db2, (true, none))
    | some payment_amount =>
      if payment_amount = 0 then (db2, (true, none))
      else
        let current_charges_against_payment := budget.current_sum
        let new_sum := current_charges_against_payment + total_cost
        if new_sum > payment_amount then
          (db2, (false, some (rejectionReasonFor qty unit current_charges_against_payment payment_amount)))
        else
          ({ db2 with budgets := db2.budgets.map (fun b =>
              if b.payment == payment_ref.id then { b with current_sum := new_sum } else b) },
           (true, none))

/-- Model of `tasks.create_project_on_cnap`.  The source builds the POST
payload reading `order.quantity`, but its parameter is named `order_obj`
and no variable named order is in scope, so Python raises `NameError`
while the payload is being built, before the HTTP request is issued; the
API call log is therefore never extended. -/
def create_project_on_cnap (_order_obj : Order) (db : DB) : Except (Exn × DB) DB :=
  .error (.nameError ("order"), db)

/-- Model of `tasks.fill_order`: create the Purchase and the (unfilled)
Order, decrement the inventory of a quantity-limited product, contact the
downstream API, and flip `order_filled` when that call returns. -/
def fill_order (cfg : Settings) (info : PipelineInfo) (payment_ref : Payment) (db : DB) :
    Except (Exn × DB) DB :=
  let quantity_ordered := info.NUM_OF_SAMPLE
  match db.products.find? (fun p => p.name == info.PIPELINE) with
  | none => .error (.doesNotExist ("Product"), db)
  | some product =>
  match db.users.find? (fun u => u.email == info.EMAIL) with
  | none => .error (.doesNotExist ("User"), db)
  | some base_user =>
  match db.researchGroups.find? (fun rg => rg.pi_email == info.PI_EMAIL) with
  | none => .error (.doesNotExist ("ResearchGroup"), db)
  | some rg =>
  match findCnapUser db base_user.email rg.id with
  | none => .error (.doesNotExist ("CnapUser"), db)
  | some cnap_user =>
    let purchase : Purchase := { id := db.nextId, user := cnap_user.id }
    let db1 := { db with purchases := purchase :: db.purchases, nextId := db.nextId + 1 }
    let order_obj : Order :=
      { id := db1.nextId, product := product.name, purchase := purchase.id,
        quantity := quantity_ordered, order_filled := false }
    let db2 := { db1 with orders := order_obj :: db1.orders, nextId := db1.nextId + 1 }
    let db3 :=
      if product.is_quantity_limited then
        { db2 with products := db2.products.map (fun p =>
            if p.name == product.name then { p with quantity := p.quantity - quantity_ordered } else p) }
      else db2
    match create_project_on_cnap order_obj db3 with
    | .error e => .error e
    | .ok db4 =>
      .ok { db4 with orders := db4.orders.map (fun o =>
              if o.id == order_obj.id then { o with order_filled := true } else o) }

/-- Model of `tasks.handle_no_payment_number`: cost the request, send the
inventory or unknown-product alerts on failure, otherwise quote the
requester. -/
def handle_no_payment_number (cfg : Settings) (info : PipelineInfo) (db : DB) : DB :=
  match calculate_total_purchase cfg info db with
  | (db1, .error .inventory) =>
    send_inventory_alert_to_qbrc cfg info (send_inventory_alert_to_requester info db1)
  | (db1, .error .productDoesNotExist) => general_alert_to_requester info db1
  | (db1, .ok _) =>
    { db1 with sentEmails := { kind := .quoteNoPayment, recipient := info.EMAIL } :: db1.sentEmails }

/-- Model of `tasks.handle_pipeline_request_email`: the pipeline routing.
The HAVE_ACCT_NUM yes/no answer is read with `.lower()[0]`, which raises
`IndexError` on an empty value; any first character other than the letter
n is treated as having an account number. -/
def handle_pipeline_request_email (cfg : Settings) (info : PipelineInfo) (db : DB) :
    Except (Exn × DB) DB :=
  match db.users.find? (fun u => u.email == info.EMAIL) with
  | none => .ok (ask_requester_to_register_first info.EMAIL db)
  | some base_user =>
  match db.researchGroups.find? (fun rg => rg.pi_email == info.PI_EMAIL) with
  | none => .ok (ask_pipeline_requester_to_register_lab info db)
  | some rg =>
  match findCnapUser db base_user.email rg.id with
  | none => .ok (ask_requester_to_associate_with_pi_first info db)
  | some _cnap_user =>
  match pyLowerFirst info.HAVE_ACCT_NUM with
  | none => .error (.indexError, db)
  | some c =>
    if c == 'n' then
      .ok (inform_qbrc_of_request_without_payment_number cfg info (handle_no_payment_number cfg info db))
    else
      match db.payments.find? (fun p => p.code == info.ACCT_NUM) with
      | none => .ok (ask_user_to_resubmit_payment_info info db)
      | some payment_ref =>
        let checkStep := check_that_purchase_is_valid_against_payment cfg info payment_ref db
        let db1 := checkStep.1
        let is_valid_order := checkStep.2.1
        let rejection_reason := checkStep.2.2
        if is_valid_order then fill_order cfg info payment_ref db1
        else .ok (inform_user_of_invalid_order info payment_ref rejection_reason db1)

/-- One fetched message as seen by `get_email_body`: `decoded` is the
payload when `email.message_from_string(...).get_payload()` succeeds, and
`none` when that decoding raises. -/
structure RawMessage where
  decoded : Option Payload
deriving DecidableEq

/-- The ProcessedEmail marker `get_email_body` creates for a message uid. -/
def markerFor (cfg : Settings) (message_uid : Nat) : ProcessedEmail :=
  { mail_server_name := cfg.MAIL_HOST, mail_folder_name := cfg.MAIL_FOLDER_NAME,
    message_uid := message_uid }

/-- Model of `tasks.get_email_body`: create the ProcessedEmail marker
BEFORE touching the message; if extracting the payload raises, delete the
marker just created and re-raise. -/
def get_email_body (cfg : Settings) (message_uid : Nat) (message : RawMessage) (db : DB) :
    Except (Exn × DB) (Payload × DB) :=
  let p := markerFor cfg message_uid
  let db1 := { db with processedEmails := p :: db.processedEmails }
  match message.decoded with
  | some body => .ok (body, db1)
  | none => .error (.decodeError, { db1 with processedEmails := db1.processedEmails.erase p })

/-- The body of the per-message loop of `tasks.process_emails`, without
its exception handler: extract the body (marking the message processed),
parse it against the schema of the request type, and run the matching
business handler. -/
def processSingleEmailAttempt (cfg : Settings) (request_type : String) (uid : Nat)
    (message : RawMessage) (db : DB) : Except (Exn × DB) DB :=
  match get_email_body cfg uid message db with
  | .error e => .error e
  | .ok bodyDb =>
    let mail_body := bodyDb.1
    let db1 := bodyDb.2
    if request_type == ACCOUNT_REQUEST then
      match parse_email_contents mail_body REQUIRED_ACCOUNT_CREATION_KEYS with
      | .error pe => .error (.mailParse pe, db1)
      | .ok info_dict => handle_account_request_email cfg (AccountInfo.ofDict info_dict) db1
    else if request_type == PIPELINE_REQUEST then
      match parse_email_contents mail_body REQUIRED_PIPELINE_CREATION_KEYS with
      | .error pe => .error (.mailParse pe, db1)
      | .ok info_dict => handle_pipeline_request_email cfg (PipelineInfo.ofDict info_dict) db1
    else .ok db1

/-- One iteration of the per-message loop of `tasks.process_emails`,
including its per-message failure boundary: any exception is caught and
reported to the admins, and processing continues from the state reached
at the raise. -/
def processSingleEmail (cfg : Settings) (request_type : String) (uid : Nat)
    (message : RawMessage) (db : DB) : DB :=
  match processSingleEmailAttempt cfg request_type uid message db with
  | .ok db1 => db1
  | .error exDb => handle_exception cfg exDb.1 exDb.2

/-- The current charge sum recorded against a payment id (0 when no
Budget row exists, matching the lazily-created budget's default). -/
def budgetSumFor (db : DB) (payment_id : Nat) : Rat :=
  match db.budgets.find? (fun b => b.payment == payment_id) with
  | some b => b.current_sum
  | none => 0

/-- The remaining inventory recorded for a product name (0 when the
product does not exist). -/
def productQtyFor (db : DB) (name : String) : Int :=
  match db.products.find? (fun p => p.name == name) with
  | some p => p.quantity
  | none => 0

/-- The state reached by a fallible task, whether or not it raised
(side effects performed before a raise persist). -/
def stateOf (r : Except (Exn × DB) DB) : DB :=
  match r with
  | .ok db => db
  | .error e => e.2

/-- The exception escaping a fallible task, if any. -/
def errOf (r : Except (Exn × DB) DB) : Option Exn :=
  match r with
  | .ok _ => none
  | .error e => some e.1

/-- An empty database (fresh ids start at 20), used by the concrete
witness and counterexample states. -/
def emptyDB : DB :=
  { users := [], organizations := [], researchGroups := [], finCoords := [],
    cnapUsers := [], pendingUsers := [], processedEmails := [], payments := [],
    budgets := [], products := [], purchases := [], orders := [], sentEmails := [],
    apiCalls := [], nextId := 20 }

/-- Concrete settings fixture. -/
def exCfg : Settings :=
  { QBRC_EMAIL := ("qbrc@x.org"), MAIL_HOST := ("h"), MAIL_FOLDER_NAME := ("f") }

/-- Concrete pipeline request fixture: 6 samples of the rnaseq product,
with an account code. -/
def exPipeInfo : PipelineInfo :=
  { REGISTERED := ("Yes"), EMAIL := ("u@x.org"), PI_EMAIL := ("pi@x.org"),
    HAVE_ACCT_NUM := ("Yes"), ACCT_NUM := ("1234"), NUM_OF_SAMPLE := 6,
    PIPELINE := ("rnaseq"), SEQ_TYPE := ("se") }

/-- Concrete payment fixture with a 100.00 ceiling. -/
def exPay100 : Payment :=
  { id := 7, payment_type := ("PO"), number := ("n1"), client := 1, code := ("1234"),
    payment_amount := some 100 }

/-- Concrete quantity-limited product fixture (25 in stock). -/
def exProdLimited : Product :=
  { name := ("rnaseq"), description := (""), quantity := 25,
    is_quantity_limited := true, cnap_workflow_pk := 1, unit_cost := 10 }

/-- Concrete non-limited product fixture. -/
def exProdUnlimited : Product :=
  { name := ("rnaseq"), description := (""), quantity := 0,
    is_quantity_limited := false, cnap_workflow_pk := 1, unit_cost := 10 }

/-- Concrete requester fixture. -/
def exUser : BaseUser :=
  { first_name := ("Jane"), last_name := ("P"), email := ("u@x.org") }

/-- Concrete research-group fixture for the PI pi at x.org. -/
def exRG : ResearchGroup :=
  { id := 3, pi_name := ("John Smith"), pi_email := ("pi@x.org"), organization := none,
    has_harvard_appointment := true, department := ("Bio"), address_lines := (""),
    city := (""), state := (""), postal_code := (""), country := ("") }

/-- Concrete association fixture joining the requester to the group. -/
def exCnap : CnapUser :=
  { id := 4, user_email := ("u@x.org"), research_group := [3] }

/-- Database with a registered, associated requester and the limited
product (the fully-resolved pipeline scenario). -/
def exFillDB : DB :=
  { emptyDB with users := [exUser], researchGroups := [exRG], cnapUsers := [exCnap],
                 products := [exProdLimited] }

/-- Concrete account-request fixture: requester u at x.org naming the PI
pi at x.org, not a self-request. -/
def exAcctInfo : AccountInfo :=
  { FIRST_NAME := ("Jane"), LAST_NAME := ("P"), EMAIL := ("u@x.org"), PHONE := ("1"),
    PI := ("No"), PI_FIRST_NAME := ("John"), PI_LAST_NAME := ("Smith"),
    PI_EMAIL := ("pi@x.org"), PI_PHONE := ("2"), HARVARD_APPOINTMENT := ("Yes"),
    ORGANIZATION := ("HSPH"), DEPARTMENT := ("Bio"), FINANCIAL_CONTACT := ("F"),
    FINANCIAL_EMAIL := ("f@x.org"), ADDRESS := ("A"), CITY := ("C"), STATE := ("S"),
    POSTAL_CODE := ("0"), COUNTRY := ("US") }

/-- Concrete PI self-request fixture. -/
def exAcctInfoPI : AccountInfo :=
  { exAcctInfo with PI := ("Yes"), FIRST_NAME := ("John"), LAST_NAME := ("Smith"),
                    EMAIL := ("pi@x.org") }

/-- Concrete base user fixture for the PI. -/
def exPiUser : BaseUser :=
  { first_name := ("John"), last_name := ("Smith"), email := ("pi@x.org") }

/-- Concrete association fixture joining the PI to their own group. -/
def exPiCnap : CnapUser :=
  { id := 5, user_email := ("pi@x.org"), research_group := [3] }

/-- Database where the lab is known (PI user associated) but the
requester u at x.org is unknown. -/
def exKnownLabDB : DB :=
  { emptyDB with researchGroups := [exRG], users := [exPiUser], cnapUsers := [exPiCnap] }

/-- Database where the requester is known and already associated with the
known lab. -/
def exAssocDB : DB :=
  { emptyDB with users := [exUser], researchGroups := [exRG], cnapUsers := [exCnap] }

/-- Database where the requester and the lab are known but not yet
associated. -/
def exUnassocDB : DB :=
  { emptyDB with users := [exUser], researchGroups := [exRG] }

/-- Concrete account-request body whose PI field carries an empty value
(every required key present). -/
def exAcctBody : String :=
  ("FIRST_NAME: Jane\nLAST_NAME: P\nEMAIL: u@x.org\nPHONE: 1\nPI:\nPI_FIRST_NAME: John\nPI_LAST_NAME: Smith\nPI_EMAIL: pi@x.org\nPI_PHONE: 2\nHARVARD_APPOINTMENT: Yes\nORGANIZATION: HSPH\nDEPARTMENT: Bio\nFINANCIAL_CONTACT: F\nFINANCIAL_EMAIL: f@x.org\nADDRESS: A\nCITY: C\nSTATE: S\nPOSTAL_CODE: 0\nCOUNTRY: US")

/-- The dictionary `parse_email_contents` extracts from `exAcctBody`. -/
def exAcctDict : List (String × String) :=
  [(("FIRST_NAME"), ("Jane")), (("LAST_NAME"), ("P")), (("EMAIL"), ("u@x.org")),
   (("PHONE"), ("1")), (("PI"), ("")), (("PI_FIRST_NAME"), ("John")),
   (("PI_LAST_NAME"), ("Smith")), (("PI_EMAIL"), ("pi@x.org")), (("PI_PHONE"), ("2")),
   (("HARVARD_APPOINTMENT"), ("Yes")), (("ORGANIZATION"), ("HSPH")),
   (("DEPARTMENT"), ("Bio")), (("FINANCIAL_CONTACT"), ("F")),
   (("FINANCIAL_EMAIL"), ("f@x.org")), (("ADDRESS"), ("A")), (("CITY"), ("C")),
   (("STATE"), ("S")), (("POSTAL_CODE"), ("0")), (("COUNTRY"), ("US"))]

/-! ## Parser lemmas -/

theorem dictContains_insert_iff (d : List (String × String)) (k v k2 : String) :
    dictContains (dictInsert d k v) k2 = true ↔ (k2 = k ∨ dictContains d k2 = true) := by
  by_cases h : dictContains d k = true
  · have hmap : dictInsert d k v = d.map (fun kv => if kv.1 == k then (k, v) else kv) := by
      simp [dictInsert, h]
    rw [hmap]
    simp only [dictContains, List.any_eq_true, List.mem_map] at h ⊢
    constructor
    · rintro ⟨kv2, ⟨kv0, hkv0, rfl⟩, he⟩
      by_cases hk : (kv0.1 == k) = true
      · rw [if_pos hk] at he
        exact Or.inl (beq_iff_eq.mp he).symm
      · rw [if_neg hk] at he
        exact Or.inr ⟨kv0, hkv0, he⟩
    · rintro (rfl | ⟨kv0, hkv0, he⟩)
      · obtain ⟨kv0, hkv0, hk⟩ := h
        exact ⟨(k2, v), ⟨kv0, hkv0, by rw [if_pos hk]⟩, by simp⟩
      · by_cases hk : (kv0.1 == k) = true
        · have h1 : kv0.1 = k := beq_iff_eq.mp hk
          have h2 : kv0.1 = k2 := beq_iff_eq.mp he
          refine ⟨(k, v), ⟨kv0, hkv0, by rw [if_pos hk]⟩, ?_⟩
          show (k == k2) = true
          rw [← h1, h2]
          exact beq_self_eq_true k2
        · exact ⟨kv0, ⟨kv0, hkv0, by rw [if_neg hk]⟩, he⟩
  · have happ : dictInsert d k v = d ++ [(k, v)] := by
      simp [dictInsert, h]
    rw [happ]
    simp only [dictContains, List.any_append, List.any_cons, List.any_nil, Bool.or_false,
      Bool.or_eq_true, List.any_eq_true]
    constructor
    · rintro (⟨kv0, hkv0, he⟩ | he)
      · exact Or.inr ⟨kv0, hkv0, he⟩
      · exact Or.inl (beq_iff_eq.mp he).symm
    · rintro (rfl | ⟨kv0, hkv0, he⟩)
      · exact Or.inr (by simp)
      · exact Or.inl ⟨kv0, hkv0, he⟩

theorem parseLoop_error_of_badLine (K : List String) (xs : List String)
    (acc : List (String × String)) (x : String) (hx : x ∈ xs)
    (hbad : splitFirstColon x = none) :
    ∃ e, parseLoop K xs acc = .error e := by
  induction xs generalizing acc with
  | nil => cases hx
  | cons y rest ih =>
    rcases List.mem_cons.mp hx with rfl | hx2
    · exact ⟨.badLine x, by simp [parseLoop, hbad]⟩
    · cases hsp : splitFirstColon y with
      | none => exact ⟨.badLine y, by simp [parseLoop, hsp]⟩
      | some kv =>
        obtain ⟨e, he⟩ := ih
          (if K.contains (pyStrip kv.1) then dictInsert acc (pyStrip kv.1) (pyStrip kv.2) else acc) hx2
        exact ⟨e, by simpa [parseLoop, hsp] using he⟩

theorem parseLoop_ok_of_allGood (K : List String) (xs : List String)
    (acc : List (String × String)) (hgood : ∀ x ∈ xs, (splitFirstColon x).isSome) :
    ∃ d, parseLoop K xs acc = .ok d := by
  induction xs generalizing acc with
  | nil => exact ⟨acc, rfl⟩
  | cons y rest ih =>
    cases hsp : splitFirstColon y with
    | none => exact absurd (hgood y (by simp)) (by simp [hsp])
    | some kv =>
      obtain ⟨d, hd⟩ := ih
        (if K.contains (pyStrip kv.1) then dictInsert acc (pyStrip kv.1) (pyStrip kv.2) else acc)
        (fun x hx => hgood x (List.mem_cons_of_mem _ hx))
      exact ⟨d, by simpa [parseLoop, hsp] using hd⟩

theorem parseLoop_ok_keys (K : List String) (xs : List String)
    (acc d : List (String × String)) (h : parseLoop K xs acc = .ok d) (k : String) :
    dictContains d k = true ↔
      (dictContains acc k = true ∨ (k ∈ lineKeys xs ∧ k ∈ K)) := by
  induction xs generalizing acc with
  | nil =>
    simp only [parseLoop, Except.ok.injEq] at h
    subst h
    simp [lineKeys]
  | cons y rest ih =>
    cases hsp : splitFirstColon y with
    | none => simp [parseLoop, hsp] at h
    | some kv =>
      simp only [parseLoop, hsp] at h
      have hkeys : lineKeys (y :: rest) = pyStrip kv.1 :: lineKeys rest := by
        simp [lineKeys, hsp]
      rw [hkeys]
      by_cases hmem : K.contains (pyStrip kv.1) = true
      · rw [if_pos hmem] at h
        have hKmem : pyStrip kv.1 ∈ K := by simpa using hmem
        rw [ih _ h]
        simp only [dictContains_insert_iff, List.mem_cons]
        constructor
        · rintro ((rfl | ha) | ⟨hb, hc⟩)
          · exact Or.inr ⟨Or.inl rfl, hKmem⟩
          · exact Or.inl ha
          · exact Or.inr ⟨Or.inr hb, hc⟩
        · rintro (ha | ⟨(rfl | hb), hc⟩)
          · exact Or.inl (Or.inr ha)
          · exact Or.inl (Or.inl rfl)
          · exact Or.inr ⟨hb, hc⟩
      · rw [if_neg hmem] at h
        have hKmem : pyStrip kv.1 ∉ K := by simpa using hmem
        rw [ih _ h]
        simp only [List.mem_cons]
        constructor
        · rintro (ha | ⟨hb, hc⟩)
          · exact Or.inl ha
          · exact Or.inr ⟨Or.inr hb, hc⟩
        · rintro (ha | ⟨(rfl | hb), hc⟩)
          · exact Or.inl ha
          · exact absurd hc hKmem
          · exact Or.inr ⟨hb, hc⟩

/-- C8.  Email parser contract: over a payload whose body text is
present, (1) a successful parse returns a dictionary containing a key iff
it belongs to the required set (extra source keys are dropped, and a key
carrying an empty value counts as present); (2) any non-empty stripped
line lacking a colon fails the parse; (3) when every line is well formed
but some required key is absent from the lines, the parse fails with the
missing-required error. -/
theorem C8_parser_contract (text : String) (K : List String) :
    (∀ d, parse_email_contents { body := some text } K = .ok d →
      ∀ k, dictContains d k = true ↔ k ∈ K)
    ∧ ((∃ x ∈ contentLines text, splitFirstColon x = none) →
      ∃ e, parse_email_contents { body := some text } K = .error e)
    ∧ ((∀ x ∈ contentLines text, (splitFirstColon x).isSome) →
      (∃ k ∈ K, k ∉ lineKeys (contentLines text)) →
      parse_email_contents { body := some text } K = .error .missingRequired) := by
  refine ⟨?_, ?_, ?_⟩
  · intro d hok k
    simp only [parse_email_contents] at hok
    cases hloop : parseLoop K (contentLines text) [] with
    | error e => rw [hloop] at hok; cases hok
    | ok d0 =>
      rw [hloop] at hok
      simp only [] at hok
      by_cases hmiss : K.any (fun k2 => ! dictContains d0 k2) = true
      · rw [if_pos hmiss] at hok; cases hok
      · rw [if_neg hmiss] at hok
        cases hok
        constructor
        · intro hc
          rcases (parseLoop_ok_keys K _ _ _ hloop k).mp hc with hfalse | ⟨_, hk⟩
          · simp [dictContains] at hfalse
          · exact hk
        · intro hk
          by_contra hc
          exact hmiss (List.any_eq_true.mpr ⟨k, hk, by simp [hc]⟩)
  · rintro ⟨x, hx, hbad⟩
    obtain ⟨e, he⟩ := parseLoop_error_of_badLine K (contentLines text) [] x hx hbad
    exact ⟨e, by simp [parse_email_contents, he]⟩
  · intro hgood hex
    obtain ⟨k, hkK, hkabs⟩ := hex
    obtain ⟨d, hd⟩ := parseLoop_ok_of_allGood K (contentLines text) [] hgood
    have hnc : dictContains d k = false := by
      by_contra hc
      rw [Bool.not_eq_false] at hc
      rcases (parseLoop_ok_keys K _ _ _ hd k).mp hc with hfalse | ⟨hline, _⟩
      · simp [dictContains] at hfalse
      · exact hkabs hline
    have hany : K.any (fun k2 => ! dictContains d k2) = true :=
      List.any_eq_true.mpr ⟨k, hkK, by simp [hnc]⟩
    simp only [parse_email_contents, hd]
    rw [if_pos hany]

/-- C8 witness: parsing a body with keys A (valued), B (empty value) and
an extraneous key C against the required set [A, B] succeeds, and the
result contains the key A exactly because it is required. -/
theorem C8_parser_contract_witness :
    dictContains [(("A"), ("1")), (("B"), (""))] ("A") = true ↔ ("A") ∈ [("A"), ("B")] :=
  (C8_parser_contract ("A: 1\nB:\nC: x") [("A"), ("B")]).1
    [(("A"), ("1")), (("B"), (""))] rfl ("A")

/-! ## Budget and inventory lemmas -/

theorem find?_map_update {α : Type} (l : List α) (p : α → Bool) (f : α → α)
    (hf : ∀ a, p (f a) = p a) : (l.map f).find? p = (l.find? p).map f := by
  induction l with
  | nil => rfl
  | cons a t ih =>
    by_cases hpa : p a = true
    · rw [List.map_cons, List.find?_cons_of_pos _ (by rw [hf]; exact hpa),
        List.find?_cons_of_pos _ hpa]
      rfl
    · rw [List.map_cons, List.find?_cons_of_neg _ (by rw [hf]; exact hpa),
        List.find?_cons_of_neg _ hpa, ih]

theorem calculate_total_purchase_ok (cfg : Settings) (info : PipelineInfo) (db : DB)
    (prod : Product) (hprod : db.products.find? (fun p => p.name == info.PIPELINE) = some prod)
    (hinv : ¬ (prod.is_quantity_limited = true ∧ info.NUM_OF_SAMPLE > prod.quantity)) :
    calculate_total_purchase cfg info db = (db, .ok (info.NUM_OF_SAMPLE, prod.unit_cost)) := by
  unfold calculate_total_purchase
  rw [hprod]
  by_cases hl : prod.is_quantity_limited = true
  · have hq : ¬ info.NUM_OF_SAMPLE > prod.quantity := fun hgt => hinv ⟨hl, hgt⟩
    simp [hl, hq]
  · simp [hl]

/-- C1 counterexample.  The claim asserts acceptance iff `S + C ≤ A` for
any non-null amount A; at a Payment whose amount is 0 (non-null) with a
6 × 10 order the code accepts without mutating the budget sum (the
Python truthiness test `if payment_amount:` treats a zero amount like a
null one) although `S + C = 60 > 0 = A`, where the claim demands
rejection. -/
theorem C1_budget_validation_counterexample :
    (check_that_purchase_is_valid_against_payment
      { QBRC_EMAIL := ("qbrc@x.org"), MAIL_HOST := ("h"), MAIL_FOLDER_NAME := ("f") }
      { REGISTERED := ("Yes"), EMAIL := ("u@x.org"), PI_EMAIL := ("pi@x.org"),
        HAVE_ACCT_NUM := ("Yes"), ACCT_NUM := ("1234"), NUM_OF_SAMPLE := 6,
        PIPELINE := ("rnaseq"), SEQ_TYPE := ("se") }
      { id := 7, payment_type := ("PO"), number := ("n1"), client := 1, code := ("1234"),
        payment_amount := some 0 }
      { users := [], organizations := [], researchGroups := [], finCoords := [],
        cnapUsers := [], pendingUsers := [], processedEmails := [], payments := [],
        budgets := [],
        products := [{ name := ("rnaseq"), description := (""), quantity := 0,
                       is_quantity_limited := false, cnap_workflow_pk := 1, unit_cost := 10 }],
        purchases := [], orders := [], sentEmails := [], apiCalls := [], nextId := 20 }).2.1
      = true
    ∧ budgetSumFor (check_that_purchase_is_valid_against_payment
      { QBRC_EMAIL := ("qbrc@x.org"), MAIL_HOST := ("h"), MAIL_FOLDER_NAME := ("f") }
      { REGISTERED := ("Yes"), EMAIL := ("u@x.org"), PI_EMAIL := ("pi@x.org"),
        HAVE_ACCT_NUM := ("Yes"), ACCT_NUM := ("1234"), NUM_OF_SAMPLE := 6,
        PIPELINE := ("rnaseq"), SEQ_TYPE := ("se") }
      { id := 7, payment_type := ("PO"), number := ("n1"), client := 1, code := ("1234"),
        payment_amount := some 0 }
      { users := [], organizations := [], researchGroups := [], finCoords := [],
        cnapUsers := [], pendingUsers := [], processedEmails := [], payments := [],
        budgets := [],
        products := [{ name := ("rnaseq"), description := (""), quantity := 0,
                       is_quantity_limited := false, cnap_workflow_pk := 1, unit_cost := 10 }],
        purchases := [], orders := [], sentEmails := [], apiCalls := [], nextId := 20 }).1 7
      = 0
    ∧ ¬ ((0 : Rat) + (6 : Int) * (10 : Rat) ≤ 0) :=
  ⟨rfl, rfl, by norm_num⟩

/-- C1 (amended).  Budget validation for an order of cost
`C = quantity * unit_cost` (product resolved, inventory not exceeded)
against a Payment and prior charges S: a null amount always accepts
without mutating the budget sum; a ZERO amount likewise always accepts
without mutating the budget sum (Python's `if payment_amount:` is a
truthiness test, so 0 takes the open-ended branch — the amendment forced
by the counterexample); a non-null nonzero amount A accepts iff
`S + C ≤ A`, persists `S + C` on acceptance, and on rejection leaves the
sum unchanged and returns the reason string naming the order quantity and
unit cost, the prior charges and the payment ceiling. -/
theorem C1_budget_validation (cfg : Settings) (info : PipelineInfo) (payment_ref : Payment)
    (db : DB) (prod : Product) (S : Rat)
    (hprod : db.products.find? (fun p => p.name == info.PIPELINE) = some prod)
    (hinv : ¬ (prod.is_quantity_limited = true ∧ info.NUM_OF_SAMPLE > prod.quantity))
    (hS : budgetSumFor db payment_ref.id = S) :
    (payment_ref.payment_amount = none →
      (check_that_purchase_is_valid_against_payment cfg info payment_ref db).2.1 = true ∧
      budgetSumFor (check_that_purchase_is_valid_against_payment cfg info payment_ref db).1
        payment_ref.id = S)
    ∧ (payment_ref.payment_amount = some 0 →
      (check_that_purchase_is_valid_against_payment cfg info payment_ref db).2.1 = true ∧
      budgetSumFor (check_that_purchase_is_valid_against_payment cfg info payment_ref db).1
        payment_ref.id = S)
    ∧ (∀ A : Rat, payment_ref.payment_amount = some A → A ≠ 0 →
        ((check_that_purchase_is_valid_against_payment cfg info payment_ref db).2.1 = true
          ↔ S + (info.NUM_OF_SAMPLE : Rat) * prod.unit_cost ≤ A)
        ∧ (S + (info.NUM_OF_SAMPLE : Rat) * prod.unit_cost ≤ A →
            budgetSumFor (check_that_purchase_is_valid_against_payment cfg info payment_ref db).1
              payment_ref.id = S + (info.NUM_OF_SAMPLE : Rat) * prod.unit_cost)
        ∧ (¬ S + (info.NUM_OF_SAMPLE : Rat) * prod.unit_cost ≤ A →
            budgetSumFor (check_that_purchase_is_valid_against_payment cfg info payment_ref db).1
              payment_ref.id = S
            ∧ (check_that_purchase_is_valid_against_payment cfg info payment_ref db).2.2
              = some (rejectionReasonFor info.NUM_OF_SAMPLE prod.unit_cost S A))) := by
  have hcalc := calculate_total_purchase_ok cfg info db prod hprod hinv
  unfold check_that_purchase_is_valid_against_payment
  rw [hcalc]
  dsimp only
  cases hb : db.budgets.find? (fun b => b.payment == payment_ref.id) with
  | some b =>
    have hSb : b.current_sum = S := by
      unfold budgetSumFor at hS
      rw [hb] at hS
      exact hS
    dsimp only
    cases hamt : payment_ref.payment_amount with
    | none =>
      refine ⟨fun _ => ⟨rfl, ?_⟩, fun h0 => (nomatch h0), ?_⟩
      · unfold budgetSumFor
        rw [hb]
        exact hSb
      · intro A hA
        cases hA
    | some A0 =>
      refine ⟨fun hnone => (nomatch hnone), ?_, ?_⟩
      · intro h0
        cases h0
        dsimp only
        rw [if_pos rfl]
        refine ⟨rfl, ?_⟩
        unfold budgetSumFor
        rw [hb]
        exact hSb
      · intro A hA hA0
        cases hA
        dsimp only
        rw [if_neg hA0]
        by_cases hle : b.current_sum + (info.NUM_OF_SAMPLE : Rat) * prod.unit_cost > A0
        · rw [if_pos hle]
          rw [hSb] at hle
          refine ⟨by simpa using hle, fun hc => absurd hc (not_le.mpr hle), fun _ => ⟨?_, ?_⟩⟩
          · unfold budgetSumFor
            rw [hb]
            exact hSb
          · rw [hSb]
        · rw [if_neg hle]
          rw [hSb] at hle
          push_neg at hle
          refine ⟨by simpa using hle, fun _ => ?_, fun hc => absurd hle hc⟩
          unfold budgetSumFor
          dsimp only
          rw [find?_map_update _ _ _
            (fun a => by by_cases hp : (a.payment == payment_ref.id) = true <;> simp [hp]), hb]
          have hpb := List.find?_some hb
          simp [beq_iff_eq.mp hpb, hSb]
  | none =>
    have hS0 : S = 0 := by
      unfold budgetSumFor at hS
      rw [hb] at hS
      exact hS.symm
    subst hS0
    unfold create_budget
    dsimp only
    cases hamt : payment_ref.payment_amount with
    | none =>
      refine ⟨fun _ => ⟨rfl, ?_⟩, fun h0 => (nomatch h0), ?_⟩
      · unfold budgetSumFor
        dsimp only
        rw [List.find?_cons_of_pos _ (by simp)]
      · intro A hA
        cases hA
    | some A0 =>
      refine ⟨fun hnone => (nomatch hnone), ?_, ?_⟩
      · intro h0
        cases h0
        dsimp only
        rw [if_pos rfl]
        refine ⟨rfl, ?_⟩
        unfold budgetSumFor
        dsimp only
        rw [List.find?_cons_of_pos _ (by simp)]
      · intro A hA hA0
        cases hA
        dsimp only
        rw [if_neg hA0]
        by_cases hle : (0 : Rat) + (info.NUM_OF_SAMPLE : Rat) * prod.unit_cost > A0
        · rw [if_pos hle]
          refine ⟨by simpa using hle, fun hc => absurd hc (not_le.mpr hle), fun _ => ⟨?_, rfl⟩⟩
          unfold budgetSumFor
          dsimp only
          rw [List.find?_cons_of_pos _ (by simp)]
        · rw [if_neg hle]
          push_neg at hle
          refine ⟨by simpa using hle, fun _ => ?_, fun hc => absurd hle hc⟩
          unfold budgetSumFor
          dsimp only
          rw [List.map_cons, List.find?_cons_of_pos _ (by simp)]
          simp

/-- C1 witness: instantiation of the amended budget-validation theorem at
a 6 × 10 order against a 100.00 payment with no prior Budget row, and at the
same order against a ZERO-amount payment, where the order is accepted and
the budget sum stays at 0. -/
theorem C1_budget_validation_witness :
    ((check_that_purchase_is_valid_against_payment exCfg exPipeInfo exPay100
        { emptyDB with products := [exProdUnlimited] }).2.1 = true
      ↔ (0 : Rat) + ((6 : Int) : Rat) * 10 ≤ 100)
    ∧ ((check_that_purchase_is_valid_against_payment exCfg exPipeInfo
        { id := 7, payment_type := ("PO"), number := ("n1"), client := 1,
          code := ("1234"), payment_amount := some 0 }
        { emptyDB with products := [exProdUnlimited] }).2.1 = true
      ∧ budgetSumFor (check_that_purchase_is_valid_against_payment exCfg exPipeInfo
        { id := 7, payment_type := ("PO"), number := ("n1"), client := 1,
          code := ("1234"), payment_amount := some 0 }
        { emptyDB with products := [exProdUnlimited] }).1 7 = 0) :=
  ⟨((C1_budget_validation exCfg exPipeInfo exPay100
      { emptyDB with products := [exProdUnlimited] } exProdUnlimited
      0 rfl (by simp [exProdUnlimited]) rfl).2.2 100 rfl (by norm_num)).1,
   (C1_budget_validation exCfg exPipeInfo
      { id := 7, payment_type := ("PO"), number := ("n1"), client := 1,
        code := ("1234"), payment_amount := some 0 }
      { emptyDB with products := [exProdUnlimited] } exProdUnlimited
      0 rfl (by simp [exProdUnlimited]) rfl).2.1 rfl⟩

/-- C9.  Inventory bound: with the product resolved, (1) a quantity-
limited product raises the inventory failure iff the ordered quantity
exceeds the remaining quantity; (2) a non-limited product never raises it;
(3) running `fill_order` (user, lab and association resolved) leaves the
product's recorded quantity decreased by exactly the ordered quantity for
a quantity-limited product and unchanged otherwise. -/
theorem C9_inventory_bound (cfg : Settings) (info : PipelineInfo) (db : DB) (prod : Product)
    (hprod : db.products.find? (fun p => p.name == info.PIPELINE) = some prod) :
    (prod.is_quantity_limited = true →
      ((calculate_total_purchase cfg info db).2 = .error .inventory
        ↔ info.NUM_OF_SAMPLE > prod.quantity))
    ∧ (prod.is_quantity_limited = false →
      (calculate_total_purchase cfg info db).2 = .ok (info.NUM_OF_SAMPLE, prod.unit_cost))
    ∧ (∀ payment_ref u rg c,
        db.users.find? (fun u2 => u2.email == info.EMAIL) = some u →
        db.researchGroups.find? (fun rg2 => rg2.pi_email == info.PI_EMAIL) = some rg →
        findCnapUser db u.email rg.id = some c →
        productQtyFor (stateOf (fill_order cfg info payment_ref db)) info.PIPELINE
          = prod.quantity - (if prod.is_quantity_limited = true then info.NUM_OF_SAMPLE else 0)) := by
  refine ⟨?_, ?_, ?_⟩
  · intro hl
    unfold calculate_total_purchase
    rw [hprod]
    dsimp only
    rw [if_pos hl]
    by_cases hq : info.NUM_OF_SAMPLE > prod.quantity
    · rw [if_pos hq]
      simp [hq]
    · rw [if_neg hq]
      simp [hq]
  · intro hl
    unfold calculate_total_purchase
    rw [hprod]
    dsimp only
    rw [if_neg (by rw [hl]; exact Bool.false_ne_true)]
  · intro payment_ref u rg c hu hrg hc
    unfold fill_order
    dsimp only
    rw [hprod]
    dsimp only
    rw [hu]
    dsimp only
    rw [hrg]
    dsimp only
    rw [hc]
    dsimp only
    unfold create_project_on_cnap stateOf
    dsimp only
    by_cases hl : prod.is_quantity_limited = true
    · rw [if_pos hl, if_pos hl]
      unfold productQtyFor
      dsimp only
      rw [find?_map_update _ _ _
        (fun a => by by_cases hp : (a.name == prod.name) = true <;> simp [hp]), hprod]
      simp
    · rw [if_neg hl, if_neg hl]
      unfold productQtyFor
      dsimp only
      rw [hprod]
      simp

/-- C9 witness: a limited product with 25 units, an order of 6; after
`fill_order` the recorded quantity is 25 − 6. -/
theorem C9_inventory_bound_witness :
    productQtyFor (stateOf (fill_order exCfg exPipeInfo exPay100 exFillDB)) ("rnaseq")
      = 25 - (if (true : Bool) = true then (6 : Int) else 0) :=
  (C9_inventory_bound exCfg exPipeInfo exFillDB exProdLimited rfl).2.2
    exPay100 exUser exRG exCnap rfl rfl rfl

/-- C4.  Order fulfillment at the fully-resolved scenario of the spec
(quantity 6, limited product with 25 in stock): the embedded `fill_order`
creates exactly one Purchase and one Order (the Order on the requested
product and quantity, unfilled), decrements the product quantity to 19,
but then raises `NameError` (the source's `create_project_on_cnap` reads
the unbound name order), so the downstream API is never called and
`order_filled` is never set to true. -/
theorem C4_fill_order_name_error :
    errOf (fill_order exCfg exPipeInfo exPay100 exFillDB) = some (.nameError ("order"))
    ∧ (stateOf (fill_order exCfg exPipeInfo exPay100 exFillDB)).purchases.length = 1
    ∧ (stateOf (fill_order exCfg exPipeInfo exPay100 exFillDB)).orders.map
        (fun o => (o.product, o.quantity, o.order_filled)) = [(("rnaseq"), (6 : Int), false)]
    ∧ productQtyFor (stateOf (fill_order exCfg exPipeInfo exPay100 exFillDB)) ("rnaseq") = 19
    ∧ (stateOf (fill_order exCfg exPipeInfo exPay100 exFillDB)).apiCalls = [] :=
  ⟨rfl, rfl, rfl, rfl, rfl⟩

/-- C7 (code-bug evidence).  Both duplicate no-op paths — a PI
self-request whose lab exists, and a known requester already associated
with the known lab — change no rows and send exactly one duplicate-account
notification, but its recipient is `settings.QBRC_EMAIL` (the staff
address), not the requesting party's email address as claimed. -/
theorem C7_duplicate_notice_recipient :
    handle_account_request_email exCfg exAcctInfoPI exKnownLabDB
      = .ok { exKnownLabDB with
              sentEmails := [{ kind := .existingAccount, recipient := ("qbrc@x.org") }] }
    ∧ handle_account_request_email exCfg exAcctInfo exAssocDB
      = .ok { exAssocDB with
              sentEmails := [{ kind := .existingAccount, recipient := ("qbrc@x.org") }] }
    ∧ ("qbrc@x.org") ≠ ("pi@x.org")
    ∧ ("qbrc@x.org") ≠ ("u@x.org") :=
  ⟨rfl, rfl, by decide, by decide⟩

/-- C10.  First-character routing: (1) an account request whose PI field
is empty makes the handler raise `IndexError` before producing any
outcome; (2) the parser accepts such a body (an empty value satisfies the
required key); (3) any PI value whose lowercased first character is not
the letter y is silently routed as the negative (non-PI) answer; (4) a
pipeline request from a resolved user/lab/association with an empty
HAVE_ACCT_NUM raises `IndexError`; (5) any HAVE_ACCT_NUM value whose
lowercased first character is not the letter n is silently treated as
having an account number. -/
theorem C10_first_char_routing :
    (∀ (cfg : Settings) (info : AccountInfo) (db : DB), info.PI = ("") →
      handle_account_request_email cfg info db = .error (.indexError, db))
    ∧ (parse_email_contents { body := some exAcctBody } REQUIRED_ACCOUNT_CREATION_KEYS
        = .ok exAcctDict
       ∧ dictGetD exAcctDict ("PI") = (""))
    ∧ (∀ (cfg : Settings) (info : AccountInfo) (db : DB) (c : Char),
        pyLowerFirst info.PI = some c → c ≠ 'y' →
        handle_account_request_email cfg info db
          = (match determine_if_existing_user db info with
             | some u => .ok (handle_account_request_for_existing_user cfg info u false
                 (check_for_pi_account db info.PI_EMAIL) db)
             | none => .ok (handle_account_request_for_new_user cfg info false
                 (check_for_pi_account db info.PI_EMAIL) db)))
    ∧ (∀ (cfg : Settings) (info : PipelineInfo) (db : DB) (u : BaseUser)
        (rg : ResearchGroup) (cu : CnapUser),
        db.users.find? (fun x => x.email == info.EMAIL) = some u →
        db.researchGroups.find? (fun x => x.pi_email == info.PI_EMAIL) = some rg →
        findCnapUser db u.email rg.id = some cu →
        info.HAVE_ACCT_NUM = ("") →
        handle_pipeline_request_email cfg info db = .error (.indexError, db))
    ∧ (∀ (cfg : Settings) (info : PipelineInfo) (db : DB) (u : BaseUser)
        (rg : ResearchGroup) (cu : CnapUser) (c : Char),
        db.users.find? (fun x => x.email == info.EMAIL) = some u →
        db.researchGroups.find? (fun x => x.pi_email == info.PI_EMAIL) = some rg →
        findCnapUser db u.email rg.id = some cu →
        pyLowerFirst info.HAVE_ACCT_NUM = some c → c ≠ 'n' →
        handle_pipeline_request_email cfg info db
          = (match db.payments.find? (fun p => p.code == info.ACCT_NUM) with
             | none => .ok (ask_user_to_resubmit_payment_info info db)
             | some payment_ref =>
               if (check_that_purchase_is_valid_against_payment cfg info payment_ref db).2.1 then
                 fill_order cfg info payment_ref
                   (check_that_purchase_is_valid_against_payment cfg info payment_ref db).1
               else .ok (inform_user_of_invalid_order info payment_ref
                 (check_that_purchase_is_valid_against_payment cfg info payment_ref db).2.2
                 (check_that_purchase_is_valid_against_payment cfg info payment_ref db).1))) := by
  refine ⟨?_, ⟨rfl, rfl⟩, ?_, ?_, ?_⟩
  · intro cfg info db hPI
    unfold handle_account_request_email
    rw [hPI]
    rfl
  · intro cfg info db c hpi hc
    unfold handle_account_request_email
    rw [hpi]
    dsimp only
    have hcf : (c == 'y') = false := by simpa using hc
    rw [hcf]
    rfl
  · intro cfg info db u rg cu hu hrg hcu hacct
    unfold handle_pipeline_request_email
    rw [hu]
    dsimp only
    rw [hrg]
    dsimp only
    rw [hcu]
    dsimp only
    rw [hacct]
    rfl
  · intro cfg info db u rg cu c hu hrg hcu hpl hc
    unfold handle_pipeline_request_email
    rw [hu]
    dsimp only
    rw [hrg]
    dsimp only
    rw [hcu]
    dsimp only
    rw [hpl]
    dsimp only
    have hcf : (c == 'n') = false := by simpa using hc
    rw [hcf]
    rfl

/-- C10 witness: the empty-PI account request on the empty database
raises the indexing error. -/
theorem C10_first_char_routing_witness :
    handle_account_request_email exCfg { exAcctInfo with PI := ("") } emptyDB
      = .error (.indexError, emptyDB) :=
  C10_first_char_routing.1 exCfg { exAcctInfo with PI := ("") } emptyDB rfl

theorem map_update_id {α : Type} (l : List α) (f : α → α) (h : ∀ a ∈ l, f a = a) :
    l.map f = l := by
  induction l with
  | nil => rfl
  | cons a t ih =>
    rw [List.map_cons, h a (by simp), ih (fun x hx => h x (List.mem_cons_of_mem _ hx))]

/-- C5 counterexample.  Known requester, not a self-request, known lab,
no association: the handler creates the PendingUser (is_pi false, token
pre-generated) and emails the PI, but the resulting state carries no
pending notification to the requester, contradicting the claim's
"notifies the requester that their request is pending". -/
theorem C5_counterexample :
    handle_account_request_email exCfg exAcctInfo exUnassocDB
      = .ok { exUnassocDB with
          pendingUsers := [{ id := 20, is_pi := false, info_json := exAcctInfo,
                             approval_key := some (approvalKeyFor 20) }],
          sentEmails := [{ kind := .approvalToPi, recipient := ("pi@x.org") }],
          nextId := 21 }
    ∧ (stateOf (handle_account_request_email exCfg exAcctInfo exUnassocDB)).sentEmails.countP
        (fun ev => ev.kind == EmailKind.accountPending) = 0 :=
  ⟨rfl, by decide⟩

/-- C5 (amended).  For every account request where the requester is
known, the request is not a PI self-request, the PI's lab is known, and
no requester-lab association exists, the state machine creates a
PendingUser with is_pi = false and a pre-generated approval token and
notifies the PI for approval; the requester is NOT notified (the source
sends no pending notice on this path), and nothing else changes. -/
theorem C5_known_user_known_lab (cfg : Settings) (info : AccountInfo) (db : DB)
    (u : BaseUser) (rg : ResearchGroup) (c : Char)
    (hu : db.users.find? (fun x => x.email == info.EMAIL) = some u)
    (hrg : db.researchGroups.find? (fun x => x.pi_email == info.PI_EMAIL) = some rg)
    (hassoc : findCnapUser db u.email rg.id = none)
    (hpi : pyLowerFirst info.PI = some c) (hcy : c ≠ 'y')
    (hwf : ∀ q ∈ db.pendingUsers, q.id ≠ db.nextId) :
    handle_account_request_email cfg info db
      = .ok { db with
          pendingUsers :=
            { id := db.nextId, is_pi := false, info_json := info,
              approval_key := some (approvalKeyFor db.nextId) } :: db.pendingUsers,
          sentEmails := { kind := .approvalToPi, recipient := info.PI_EMAIL } :: db.sentEmails,
          nextId := db.nextId + 1 } := by
  unfold handle_account_request_email
  rw [hpi]
  dsimp only
  have hcf : (c == 'y') = false := by simpa using hcy
  rw [hcf]
  rw [if_neg (by simp)]
  have hdet : determine_if_existing_user db info = some u := hu
  rw [hdet]
  dsimp only
  unfold handle_account_request_for_existing_user
  have hcp : check_for_pi_account db info.PI_EMAIL = some rg := hrg
  rw [hcp]
  dsimp only
  rw [hassoc]
  dsimp only
  unfold add_approval_key_to_pending_user send_approval_email_to_pi
  dsimp only
  have htail : db.pendingUsers.map
      (fun q => if q.id = db.nextId then
        { id := db.nextId, is_pi := false, info_json := info,
          approval_key := some (approvalKeyFor db.nextId) } else q) = db.pendingUsers :=
    map_update_id _ _ (fun a ha => by rw [if_neg (hwf a ha)])
  simp [htail]

/-- C5 witness: the amended theorem at the concrete unassociated state. -/
theorem C5_known_user_known_lab_witness :
    handle_account_request_email exCfg exAcctInfo exUnassocDB
      = .ok { exUnassocDB with
          pendingUsers :=
            [{ id := 20, is_pi := false, info_json := exAcctInfo,
               approval_key := some (approvalKeyFor 20) }],
          sentEmails := [{ kind := .approvalToPi, recipient := ("pi@x.org") }],
          nextId := 21 } :=
  C5_known_user_known_lab exCfg exAcctInfo exUnassocDB exUser exRG 'n'
    rfl rfl rfl rfl (by decide) (fun q hq => absurd hq (List.not_mem_nil q))

/-- C6 counterexample.  Unknown requester but KNOWN lab: the handler
creates the PendingUser (is_pi false, with a token), emails the PI and
the requester, and sends nothing to the staff, contradicting the claim's
"regardless of whether the PI's lab is known ... notifies staff". -/
theorem C6_counterexample :
    handle_account_request_email exCfg exAcctInfo exKnownLabDB
      = .ok { exKnownLabDB with
          pendingUsers := [{ id := 20, is_pi := false, info_json := exAcctInfo,
                             approval_key := some (approvalKeyFor 20) }],
          sentEmails := [{ kind := .accountPending, recipient := ("u@x.org") },
                         { kind := .approvalToPi, recipient := ("pi@x.org") }],
          nextId := 21 }
    ∧ (stateOf (handle_account_request_email exCfg exAcctInfo exKnownLabDB)).sentEmails.countP
        (fun ev => ev.kind == EmailKind.staffNewAccount) = 0 :=
  ⟨rfl, by decide⟩

/-- C6 (amended).  For every account request where the requester is
unknown and the request is not a PI self-request: when the PI's lab is
also unknown, the state machine creates a PendingUser with is_pi = false
(no token) and notifies the staff; when the lab IS known, it instead
creates a PendingUser with is_pi = false and a pre-generated token,
notifies the PI for approval and the requester that the request is
pending, and does NOT notify the staff. -/
theorem C6_new_user_routing (cfg : Settings) (info : AccountInfo) (db : DB) (c : Char)
    (hu : db.users.find? (fun x => x.email == info.EMAIL) = none)
    (hpi : pyLowerFirst info.PI = some c) (hcy : c ≠ 'y')
    (hwf : ∀ q ∈ db.pendingUsers, q.id ≠ db.nextId) :
    (check_for_pi_account db info.PI_EMAIL = none →
      handle_account_request_email cfg info db
        = .ok { db with
            pendingUsers := { id := db.nextId, is_pi := false, info_json := info,
                              approval_key := none } :: db.pendingUsers,
            sentEmails := { kind := .staffNewAccount, recipient := cfg.QBRC_EMAIL }
              :: db.sentEmails,
            nextId := db.nextId + 1 })
    ∧ (∀ rg, check_for_pi_account db info.PI_EMAIL = some rg →
        handle_account_request_email cfg info db
          = .ok { db with
              pendingUsers := { id := db.nextId, is_pi := false, info_json := info,
                                approval_key := some (approvalKeyFor db.nextId) }
                :: db.pendingUsers,
              sentEmails := { kind := .accountPending, recipient := info.EMAIL }
                :: { kind := .approvalToPi, recipient := info.PI_EMAIL } :: db.sentEmails,
              nextId := db.nextId + 1 }) := by
  have hcf : (c == 'y') = false := by simpa using hcy
  have hdet : determine_if_existing_user db info = none := hu
  constructor
  · intro hcp
    unfold handle_account_request_email
    rw [hpi]
    dsimp only
    rw [hcf]
    rw [if_neg (by simp)]
    rw [hdet]
    dsimp only
    unfold handle_account_request_for_new_user
    rw [hcp]
    dsimp only
    unfold handle_unknown_pi_account inform_staff_of_new_account
    rfl
  · intro rg hcp
    unfold handle_account_request_email
    rw [hpi]
    dsimp only
    rw [hcf]
    rw [if_neg (by simp)]
    rw [hdet]
    dsimp only
    unfold handle_account_request_for_new_user
    rw [hcp]
    dsimp only
    unfold add_approval_key_to_pending_user send_approval_email_to_pi
    unfold send_account_pending_email_to_requester
    dsimp only
    have htail : db.pendingUsers.map
        (fun q => if q.id = db.nextId then
          { id := db.nextId, is_pi := false, info_json := info,
            approval_key := some (approvalKeyFor db.nextId) } else q) = db.pendingUsers :=
      map_update_id _ _ (fun a ha => by rw [if_neg (hwf a ha)])
    simp [htail]

/-- C6 witness: the amended theorem's known-lab branch at the concrete
state with an unknown requester. -/
theorem C6_new_user_routing_witness :
    handle_account_request_email exCfg exAcctInfo exKnownLabDB
      = .ok { exKnownLabDB with
          pendingUsers :=
            [{ id := 20, is_pi := false, info_json := exAcctInfo,
               approval_key := some (approvalKeyFor 20) }],
          sentEmails := [{ kind := .accountPending, recipient := ("u@x.org") },
                         { kind := .approvalToPi, recipient := ("pi@x.org") }],
          nextId := 21 } :=
  (C6_new_user_routing exCfg exAcctInfo exKnownLabDB 'n'
    rfl rfl (by decide) (fun q hq => absurd hq (List.not_mem_nil q))).2 exRG rfl

/-! ## PI-approval lemmas -/

theorem instantiate_spec (info : AccountInfo) (db : DB) :
    ∃ rg piU piC dbOut,
      instantiate_new_research_group info db = (rg, dbOut)
      ∧ dbOut.researchGroups = rg :: db.researchGroups
      ∧ rg.pi_email = info.PI_EMAIL
      ∧ db.nextId ≤ rg.id
      ∧ dbOut.users = piU :: db.users
      ∧ piU.email = info.PI_EMAIL
      ∧ dbOut.cnapUsers = piC :: db.cnapUsers
      ∧ piC.user_email = info.PI_EMAIL
      ∧ piC.research_group = [rg.id]
      ∧ dbOut.pendingUsers = db.pendingUsers
      ∧ dbOut.sentEmails = db.sentEmails := by
  unfold instantiate_new_research_group
  by_cases horg : 0 < info.ORGANIZATION.length
  · rw [if_pos horg]
    exact ⟨_, _, _, _, rfl, rfl, rfl, Nat.le_succ _, rfl, rfl, rfl, rfl, rfl, rfl, rfl⟩
  · rw [if_neg horg]
    exact ⟨_, _, _, _, rfl, rfl, rfl, Nat.le_refl _, rfl, rfl, rfl, rfl, rfl, rfl, rfl⟩

theorem pi_approve_noop (cfg : Settings) (pk : Nat) (db : DB) (p : PendingUser)
    (rg : ResearchGroup) (u : BaseUser) (cu : CnapUser)
    (hfind : db.pendingUsers.find? (fun q => q.id == pk) = some p)
    (hpi : p.is_pi = false)
    (hrg : db.researchGroups.find? (fun x => x.pi_email == p.info_json.PI_EMAIL) = some rg)
    (hu : db.users.find? (fun x => x.email == p.info_json.EMAIL) = some u)
    (hcu : findCnapUser db u.email rg.id = some cu) :
    pi_approve_pending_user cfg pk db = .ok db := by
  unfold pi_approve_pending_user
  rw [hfind]
  dsimp only
  have hcp : check_for_pi_account db p.info_json.PI_EMAIL = some rg := hrg
  rw [hcp]
  dsimp only
  rw [hpi]
  rw [if_neg Bool.false_ne_true]
  rw [hu]
  dsimp only
  rw [hcu]

theorem pi_approve_fresh (cfg : Settings) (pk : Nat) (db : DB) (p : PendingUser)
    (hfind : db.pendingUsers.find? (fun q => q.id == pk) = some p)
    (hpi : p.is_pi = false)
    (hne : p.info_json.EMAIL ≠ p.info_json.PI_EMAIL)
    (hrg : db.researchGroups.find? (fun x => x.pi_email == p.info_json.PI_EMAIL) = none)
    (hwf : ∀ c ∈ db.cnapUsers, ∀ g ∈ c.research_group, g < db.nextId) :
    ∃ s1 rg cuReq cuPi,
      pi_approve_pending_user cfg pk db = .ok s1
      ∧ s1.pendingUsers = db.pendingUsers
      ∧ s1.researchGroups = rg :: db.researchGroups
      ∧ rg.pi_email = p.info_json.PI_EMAIL
      ∧ db.nextId ≤ rg.id
      ∧ s1.cnapUsers = cuReq :: cuPi :: db.cnapUsers
      ∧ cuReq.user_email = p.info_json.EMAIL
      ∧ cuReq.research_group = [rg.id]
      ∧ cuPi.user_email = p.info_json.PI_EMAIL
      ∧ (s1.users.find? (fun x => x.email == p.info_json.EMAIL)).isSome = true
      ∧ s1.sentEmails
          = { kind := .accountConfirmedToQbrc, recipient := cfg.QBRC_EMAIL }
            :: { kind := .accountConfirmedToRequester, recipient := p.info_json.EMAIL }
            :: db.sentEmails := by
  obtain ⟨rg, piU, piC, dbOut, hinst, hrgs, hrgpe, hrgid, husers, hpiU, hcnaps, hpiC,
    hpiCg, hpends, hmails⟩ := instantiate_spec p.info_json db
  unfold pi_approve_pending_user
  rw [hfind]
  dsimp only
  have hcp : check_for_pi_account db p.info_json.PI_EMAIL = none := hrg
  rw [hcp]
  dsimp only
  rw [hinst]
  dsimp only
  rw [hpi]
  rw [if_neg Bool.false_ne_true]
  rw [husers]
  have hpiUne : (piU.email == p.info_json.EMAIL) = false := by
    rw [hpiU]
    exact beq_eq_false_iff_ne.mpr (Ne.symm hne)
  have hfcons : (piU :: db.users).find? (fun x => x.email == p.info_json.EMAIL)
      = db.users.find? (fun x => x.email == p.info_json.EMAIL) := by
    simp only [List.find?_cons, hpiUne]
  rw [hfcons]
  have hnocontains : ∀ c ∈ db.cnapUsers, (c.research_group.contains rg.id) = false := by
    intro c hcmem
    by_contra hcon
    rw [Bool.not_eq_false] at hcon
    have hm : rg.id ∈ c.research_group := by simpa using hcon
    exact absurd (hwf c hcmem rg.id hm) (Nat.not_lt.mpr hrgid)
  cases hufind : db.users.find? (fun x => x.email == p.info_json.EMAIL) with
  | some u =>
    dsimp only
    have hue : u.email = p.info_json.EMAIL := by simpa using List.find?_some hufind
    unfold findCnapUser
    have hnone : dbOut.cnapUsers.find?
        (fun c => c.user_email == u.email && c.research_group.contains rg.id) = none := by
      rw [hcnaps]
      apply List.find?_eq_none.mpr
      intro c hc
      rcases List.mem_cons.mp hc with rfl | hcmem
      · simp [hpiC, hue, beq_eq_false_iff_ne.mpr (Ne.symm hne)]
      · intro hpred
        have h2 := (Bool.and_eq_true _ _).mp hpred
        rw [hnocontains c hcmem] at h2
        exact Bool.false_ne_true h2.2
    rw [hnone]
    dsimp only
    refine ⟨_, rg, { id := dbOut.nextId, user_email := u.email, research_group := [rg.id] },
      piC, rfl, hpends, hrgs, hrgpe, hrgid, ?_, hue, rfl, hpiC, ?_, ?_⟩
    · exact congrArg (List.cons _) hcnaps
    · show (dbOut.users.find? (fun x => x.email == p.info_json.EMAIL)).isSome = true
      rw [husers, hfcons, hufind]
      rfl
    · exact congrArg (fun l =>
        { kind := EmailKind.accountConfirmedToQbrc, recipient := cfg.QBRC_EMAIL }
          :: { kind := EmailKind.accountConfirmedToRequester,
               recipient := p.info_json.EMAIL } :: l) hmails
  | none =>
    dsimp only
    unfold findCnapUser
    have hnone : dbOut.cnapUsers.find?
        (fun c => c.user_email == p.info_json.EMAIL && c.research_group.contains rg.id)
        = none := by
      rw [hcnaps]
      apply List.find?_eq_none.mpr
      intro c hc
      rcases List.mem_cons.mp hc with rfl | hcmem
      · simp [hpiC, beq_eq_false_iff_ne.mpr (Ne.symm hne)]
      · intro hpred
        have h2 := (Bool.and_eq_true _ _).mp hpred
        rw [hnocontains c hcmem] at h2
        exact Bool.false_ne_true h2.2
    rw [hnone]
    dsimp only
    refine ⟨_, rg,
      { id := dbOut.nextId, user_email := p.info_json.EMAIL, research_group := [rg.id] },
      piC, rfl, hpends, hrgs, hrgpe, hrgid, ?_, rfl, rfl, hpiC, ?_, ?_⟩
    · exact congrArg (List.cons _) hcnaps
    · exact Option.isSome_iff_exists.mpr ⟨_, List.find?_cons_of_pos _ (by simp)⟩
    · exact congrArg (fun l =>
        { kind := EmailKind.accountConfirmedToQbrc, recipient := cfg.QBRC_EMAIL }
          :: { kind := EmailKind.accountConfirmedToRequester,
               recipient := p.info_json.EMAIL } :: l) hmails

/-- C2.  PI-approval idempotence: two PendingUsers resolving to the same
(requester email, PI email) pair, requester distinct from PI, with the
research group not yet existing and well-formed fresh ids: the first
finalizer call yields a state with exactly one ResearchGroup for the PI
email, exactly one CnapUser association of the requester with that group,
and exactly one confirmed notification to the requester; the second call
returns the state unchanged (no rows created, no notification sent). -/
theorem C2_pi_approval_idempotent (cfg : Settings) (db : DB) (pk1 pk2 : Nat)
    (p1 p2 : PendingUser) (e pe : String)
    (h1 : db.pendingUsers.find? (fun q => q.id == pk1) = some p1)
    (h2 : db.pendingUsers.find? (fun q => q.id == pk2) = some p2)
    (hpi1 : p1.is_pi = false) (hpi2 : p2.is_pi = false)
    (he1 : p1.info_json.EMAIL = e) (hpe1 : p1.info_json.PI_EMAIL = pe)
    (he2 : p2.info_json.EMAIL = e) (hpe2 : p2.info_json.PI_EMAIL = pe)
    (hne : e ≠ pe)
    (hrg : db.researchGroups.find? (fun rg => rg.pi_email == pe) = none)
    (hwf : ∀ c ∈ db.cnapUsers, ∀ g ∈ c.research_group, g < db.nextId) :
    ∃ s1, pi_approve_pending_user cfg pk1 db = .ok s1
      ∧ pi_approve_pending_user cfg pk2 s1 = .ok s1
      ∧ s1.researchGroups.countP (fun rg => rg.pi_email == pe) = 1
      ∧ (∃ rg, s1.researchGroups.find? (fun x => x.pi_email == pe) = some rg
          ∧ s1.cnapUsers.countP
              (fun c => c.user_email == e && c.research_group.contains rg.id) = 1)
      ∧ s1.sentEmails.countP
          (fun ev => ev.kind == EmailKind.accountConfirmedToRequester && ev.recipient == e)
        = db.sentEmails.countP
            (fun ev => ev.kind == EmailKind.accountConfirmedToRequester && ev.recipient == e)
          + 1 := by
  obtain ⟨s1, rg, cuReq, cuPi, hap1, hpends, hrgs, hrgpe, hrgid, hcnaps, hcre, hcrg,
    hcpi, husome, hmails⟩ :=
    pi_approve_fresh cfg pk1 db p1 h1 hpi1 (by rw [he1, hpe1]; exact hne)
      (by rw [hpe1]; exact hrg) hwf
  have h2s : s1.pendingUsers.find? (fun q => q.id == pk2) = some p2 := by
    rw [hpends]
    exact h2
  have hrg2 : s1.researchGroups.find? (fun x => x.pi_email == p2.info_json.PI_EMAIL)
      = some rg := by
    rw [hrgs, hpe2]
    exact List.find?_cons_of_pos _ (by simp [hrgpe, hpe1])
  have husome2 : ∃ u2, s1.users.find? (fun x => x.email == p2.info_json.EMAIL) = some u2 := by
    rw [he2, ← he1]
    exact Option.isSome_iff_exists.mp husome
  obtain ⟨u2, hu2⟩ := husome2
  have hue2 : u2.email = p2.info_json.EMAIL := by simpa using List.find?_some hu2
  have hcu2 : findCnapUser s1 u2.email rg.id = some cuReq := by
    unfold findCnapUser
    rw [hcnaps]
    exact List.find?_cons_of_pos _ (by simp [hue2, he2, hcre, he1, hcrg])
  have hap2 : pi_approve_pending_user cfg pk2 s1 = .ok s1 :=
    pi_approve_noop cfg pk2 s1 p2 rg u2 cuReq h2s hpi2 hrg2 hu2 hcu2
  refine ⟨s1, hap1, hap2, ?_, ⟨rg, ?_, ?_⟩, ?_⟩
  · rw [hrgs, List.countP_cons]
    have hzero : db.researchGroups.countP (fun x => x.pi_email == pe) = 0 :=
      List.countP_eq_zero.mpr (List.find?_eq_none.mp hrg)
    rw [hzero]
    simp [hrgpe, hpe1]
  · rw [hrgs]
    exact List.find?_cons_of_pos _ (by simp [hrgpe, hpe1])
  · rw [hcnaps, List.countP_cons, List.countP_cons]
    have hzero : db.cnapUsers.countP
        (fun c => c.user_email == e && c.research_group.contains rg.id) = 0 := by
      apply List.countP_eq_zero.mpr
      intro c hcm hpred
      have hsplit := (Bool.and_eq_true _ _).mp hpred
      have hcon : rg.id ∈ c.research_group := by simpa using hsplit.2
      exact absurd (hwf c hcm rg.id hcon) (Nat.not_lt.mpr hrgid)
    have hcpiF : ((cuPi.user_email == e) && cuPi.research_group.contains rg.id) = false := by
      rw [hcpi, hpe1]
      simp [beq_eq_false_iff_ne.mpr (Ne.symm hne)]
    have hcreT : ((cuReq.user_email == e) && cuReq.research_group.contains rg.id) = true := by
      rw [hcre, he1, hcrg]
      simp
    rw [hzero, hcpiF, hcreT]
    simp
  · rw [hmails, List.countP_cons, List.countP_cons]
    simp [he1]

/-- C2 witness: the idempotence theorem at a concrete state holding two
pending requests for the same requester/PI pair. -/
theorem C2_pi_approval_idempotent_witness :
    ∃ s1, pi_approve_pending_user exCfg 11
        { emptyDB with pendingUsers :=
            [{ id := 11, is_pi := false, info_json := exAcctInfo, approval_key := none },
             { id := 12, is_pi := false, info_json := exAcctInfo, approval_key := none }] }
        = .ok s1
      ∧ pi_approve_pending_user exCfg 12 s1 = .ok s1
      ∧ s1.researchGroups.countP (fun rg => rg.pi_email == ("pi@x.org")) = 1
      ∧ (∃ rg, s1.researchGroups.find? (fun x => x.pi_email == ("pi@x.org")) = some rg
          ∧ s1.cnapUsers.countP
              (fun c => c.user_email == ("u@x.org") && c.research_group.contains rg.id) = 1)
      ∧ s1.sentEmails.countP
          (fun ev => ev.kind == EmailKind.accountConfirmedToRequester
            && ev.recipient == ("u@x.org"))
        = ({ emptyDB with pendingUsers :=
            [{ id := 11, is_pi := false, info_json := exAcctInfo, approval_key := none },
             { id := 12, is_pi := false, info_json := exAcctInfo, approval_key := none }]
           } : DB).sentEmails.countP
            (fun ev => ev.kind == EmailKind.accountConfirmedToRequester
              && ev.recipient == ("u@x.org"))
          + 1 :=
  C2_pi_approval_idempotent exCfg
    { emptyDB with pendingUsers :=
        [{ id := 11, is_pi := false, info_json := exAcctInfo, approval_key := none },
         { id := 12, is_pi := false, info_json := exAcctInfo, approval_key := none }] }
    11 12
    { id := 11, is_pi := false, info_json := exAcctInfo, approval_key := none }
    { id := 12, is_pi := false, info_json := exAcctInfo, approval_key := none }
    ("u@x.org") ("pi@x.org")
    rfl rfl rfl rfl rfl rfl rfl rfl (by decide) rfl
    (fun c hc => absurd hc (List.not_mem_nil c))

/-! ## Processed-marker preservation lemmas: no business handler touches
the ProcessedEmail table. -/

@[simp]
theorem send_self_approval_email_to_pi_proc (p : PendingUser) (db : DB) :
    (send_self_approval_email_to_pi p db).processedEmails = db.processedEmails := rfl

@[simp]
theorem send_approval_email_to_pi_proc (p : PendingUser) (db : DB) :
    (send_approval_email_to_pi p db).processedEmails = db.processedEmails := rfl

@[simp]
theorem send_account_pending_email_to_requester_proc (p : PendingUser) (db : DB) :
    (send_account_pending_email_to_requester p db).processedEmails = db.processedEmails := rfl

@[simp]
theorem send_account_confirmed_email_to_requester_proc (p : PendingUser) (db : DB) :
    (send_account_confirmed_email_to_requester p db).processedEmails = db.processedEmails := rfl

@[simp]
theorem send_account_confirmed_email_to_qbrc_proc (cfg : Settings) (p : PendingUser) (db : DB) :
    (send_account_confirmed_email_to_qbrc cfg p db).processedEmails = db.processedEmails := rfl

@[simp]
theorem inform_staff_of_new_account_proc (cfg : Settings) (p : PendingUser) (db : DB) :
    (inform_staff_of_new_account cfg p db).processedEmails = db.processedEmails := rfl

@[simp]
theorem inform_user_of_existing_account_proc (cfg : Settings) (info : AccountInfo) (db : DB) :
    (inform_user_of_existing_account cfg info db).processedEmails = db.processedEmails := rfl

@[simp]
theorem handle_exception_proc (cfg : Settings) (ex : Exn) (db : DB) :
    (handle_exception cfg ex db).processedEmails = db.processedEmails := rfl

@[simp]
theorem handle_unknown_pi_account_proc (cfg : Settings) (info : AccountInfo) (b : Bool)
    (db : DB) : (handle_unknown_pi_account cfg info b db).processedEmails
      = db.processedEmails := rfl

@[simp]
theorem ask_requester_to_register_first_proc (e : String) (db : DB) :
    (ask_requester_to_register_first e db).processedEmails = db.processedEmails := rfl

@[simp]
theorem ask_requester_to_associate_with_pi_first_proc (info : PipelineInfo) (db : DB) :
    (ask_requester_to_associate_with_pi_first info db).processedEmails
      = db.processedEmails := rfl

@[simp]
theorem ask_pipeline_requester_to_register_lab_proc (info : PipelineInfo) (db : DB) :
    (ask_pipeline_requester_to_register_lab info db).processedEmails
      = db.processedEmails := rfl

@[simp]
theorem inform_qbrc_of_request_without_payment_number_proc (cfg : Settings)
    (info : PipelineInfo) (db : DB) :
    (inform_qbrc_of_request_without_payment_number cfg info db).processedEmails
      = db.processedEmails := rfl

@[simp]
theorem inform_qbrc_of_bad_pipeline_request_proc (cfg : Settings) (info : PipelineInfo)
    (db : DB) : (inform_qbrc_of_bad_pipeline_request cfg info db).processedEmails
      = db.processedEmails := rfl

@[simp]
theorem send_inventory_alert_to_requester_proc (info : PipelineInfo) (db : DB) :
    (send_inventory_alert_to_requester info db).processedEmails = db.processedEmails := rfl

@[simp]
theorem send_inventory_alert_to_qbrc_proc (cfg : Settings) (info : PipelineInfo) (db : DB) :
    (send_inventory_alert_to_qbrc cfg info db).processedEmails = db.processedEmails := rfl

@[simp]
theorem general_alert_to_requester_proc (info : PipelineInfo) (db : DB) :
    (general_alert_to_requester info db).processedEmails = db.processedEmails := rfl

@[simp]
theorem ask_user_to_resubmit_payment_info_proc (info : PipelineInfo) (db : DB) :
    (ask_user_to_resubmit_payment_info info db).processedEmails = db.processedEmails := rfl

@[simp]
theorem inform_user_of_invalid_order_proc (info : PipelineInfo) (payment : Payment)
    (r : Option String) (db : DB) :
    (inform_user_of_invalid_order info payment r db).processedEmails
      = db.processedEmails := rfl

theorem handle_account_request_for_existing_user_proc (cfg : Settings) (info : AccountInfo)
    (u : BaseUser) (b : Bool) (rgo : Option ResearchGroup) (db : DB) :
    (handle_account_request_for_existing_user cfg info u b rgo db).processedEmails
      = db.processedEmails := by
  unfold handle_account_request_for_existing_user
  cases rgo with
  | none => rfl
  | some rg =>
    dsimp only
    cases findCnapUser db u.email rg.id <;> rfl

theorem handle_account_request_for_new_user_proc (cfg : Settings) (info : AccountInfo)
    (b : Bool) (rgo : Option ResearchGroup) (db : DB) :
    (handle_account_request_for_new_user cfg info b rgo db).processedEmails
      = db.processedEmails := by
  unfold handle_account_request_for_new_user
  cases rgo <;> rfl

theorem handle_account_request_email_proc (cfg : Settings) (info : AccountInfo) (db : DB) :
    (stateOf (handle_account_request_email cfg info db)).processedEmails
      = db.processedEmails := by
  unfold handle_account_request_email stateOf
  cases pyLowerFirst info.PI with
  | none => rfl
  | some c =>
    dsimp only
    by_cases hp : (c == 'y' && (check_for_pi_account db info.PI_EMAIL).isSome) = true
    · rw [if_pos hp]
      rfl
    · rw [if_neg hp]
      cases determine_if_existing_user db info with
      | some u =>
        dsimp only
        exact handle_account_request_for_existing_user_proc cfg info u _ _ db
      | none =>
        dsimp only
        exact handle_account_request_for_new_user_proc cfg info _ _ db

theorem calculate_total_purchase_proc (cfg : Settings) (info : PipelineInfo) (db : DB) :
    (calculate_total_purchase cfg info db).1.processedEmails = db.processedEmails := by
  unfold calculate_total_purchase
  cases db.products.find? (fun p => p.name == info.PIPELINE) with
  | none => rfl
  | some product =>
    dsimp only
    split
    · split
      · rfl
      · rfl
    · rfl

theorem check_that_purchase_is_valid_against_payment_proc (cfg : Settings)
    (info : PipelineInfo) (payment_ref : Payment) (db : DB) :
    (check_that_purchase_is_valid_against_payment cfg info payment_ref db).1.processedEmails
      = db.processedEmails := by
  have hcalc := calculate_total_purchase_proc cfg info db
  unfold check_that_purchase_is_valid_against_payment
  cases hcp : calculate_total_purchase cfg info db with
  | mk db1 r =>
    rw [hcp] at hcalc
    cases r with
    | error e =>
      cases e
      · dsimp only
        rw [send_inventory_alert_to_qbrc_proc]
        exact hcalc
      · exact hcalc
    | ok qtyUnit =>
      dsimp only
      cases db1.budgets.find? (fun b => b.payment == payment_ref.id) with
      | some b =>
        dsimp only
        cases payment_ref.payment_amount with
        | none => exact hcalc
        | some amt =>
          dsimp only
          split
          · exact hcalc
          · split
            · exact hcalc
            · exact hcalc
      | none =>
        dsimp only
        cases payment_ref.payment_amount with
        | none => exact hcalc
        | some amt =>
          dsimp only
          split
          · exact hcalc
          · split
            · exact hcalc
            · exact hcalc

theorem fill_order_proc (cfg : Settings) (info : PipelineInfo) (payment_ref : Payment)
    (db : DB) : (stateOf (fill_order cfg info payment_ref db)).processedEmails
      = db.processedEmails := by
  unfold fill_order stateOf create_project_on_cnap
  cases db.products.find? (fun p => p.name == info.PIPELINE) with
  | none => rfl
  | some product =>
    dsimp only
    cases db.users.find? (fun u => u.email == info.EMAIL) with
    | none => rfl
    | some base_user =>
      dsimp only
      cases db.researchGroups.find? (fun rg => rg.pi_email == info.PI_EMAIL) with
      | none => rfl
      | some rg =>
        dsimp only
        cases findCnapUser db base_user.email rg.id with
        | none => rfl
        | some cnap_user =>
          dsimp only
          split
          · rfl
          · rfl

theorem handle_no_payment_number_proc (cfg : Settings) (info : PipelineInfo) (db : DB) :
    (handle_no_payment_number cfg info db).processedEmails = db.processedEmails := by
  have hcalc := calculate_total_purchase_proc cfg info db
  unfold handle_no_payment_number
  cases hcp : calculate_total_purchase cfg info db with
  | mk db1 r =>
    rw [hcp] at hcalc
    cases r with
    | error e =>
      cases e
      · dsimp only
        rw [send_inventory_alert_to_qbrc_proc, send_inventory_alert_to_requester_proc]
        exact hcalc
      · dsimp only
        rw [general_alert_to_requester_proc]
        exact hcalc
    | ok qtyUnit => exact hcalc

theorem handle_pipeline_request_email_proc (cfg : Settings) (info : PipelineInfo) (db : DB) :
    (stateOf (handle_pipeline_request_email cfg info db)).processedEmails
      = db.processedEmails := by
  unfold handle_pipeline_request_email
  cases db.users.find? (fun u => u.email == info.EMAIL) with
  | none => rfl
  | some base_user =>
    dsimp only
    cases db.researchGroups.find? (fun rg => rg.pi_email == info.PI_EMAIL) with
    | none => rfl
    | some rg =>
      dsimp only
      cases findCnapUser db base_user.email rg.id with
      | none => rfl
      | some cu =>
        dsimp only
        cases pyLowerFirst info.HAVE_ACCT_NUM with
        | none => rfl
        | some c =>
          dsimp only
          split
          · show (stateOf (.ok (inform_qbrc_of_request_without_payment_number cfg info
              (handle_no_payment_number cfg info db)))).processedEmails = db.processedEmails
            unfold stateOf
            rw [inform_qbrc_of_request_without_payment_number_proc]
            exact handle_no_payment_number_proc cfg info db
          · cases db.payments.find? (fun p => p.code == info.ACCT_NUM) with
            | none => rfl
            | some payment_ref =>
              dsimp only
              have hchk := check_that_purchase_is_valid_against_payment_proc cfg info
                payment_ref db
              split
              · rw [fill_order_proc]
                exact hchk
              · show (stateOf (.ok (inform_user_of_invalid_order info payment_ref _ _
                  ))).processedEmails = db.processedEmails
                unfold stateOf
                rw [inform_user_of_invalid_order_proc]
                exact hchk

theorem processSingleEmail_proc_eq (cfg : Settings) (rt : String) (uid : Nat)
    (msg : RawMessage) (db : DB) :
    (processSingleEmail cfg rt uid msg db).processedEmails
      = (stateOf (processSingleEmailAttempt cfg rt uid msg db)).processedEmails := by
  unfold processSingleEmail
  cases processSingleEmailAttempt cfg rt uid msg db with
  | ok d => rfl
  | error e => exact handle_exception_proc cfg e.1 e.2

/-- C3 counterexample.  A decodable message whose body text has a line
without a colon: the parse step fails, yet after processing the
ProcessedEmail marker is present (not rolled back), so the message will
NOT be retried on the next poll, contradicting the claim that a parse
failure (malformed line) deletes the marker. -/
theorem C3_counterexample :
    (processSingleEmail exCfg ACCOUNT_REQUEST 42
        { decoded := some { body := some ("gibberish no colon") } } emptyDB).processedEmails
      = [markerFor exCfg 42]
    ∧ parse_email_contents { body := some ("gibberish no colon") }
        REQUIRED_ACCOUNT_CREATION_KEYS = .error (.badLine ("gibberish no colon"))
    ∧ is_new_email (processSingleEmail exCfg ACCOUNT_REQUEST 42
        { decoded := some { body := some ("gibberish no colon") } } emptyDB)
        exCfg.MAIL_HOST exCfg.MAIL_FOLDER_NAME 42 = false :=
  ⟨rfl, rfl, rfl⟩

/-- C3 (amended).  Processed-marker behavior per message: the marker is
created before the message is examined; it is rolled back only when
extracting the raw payload fails (an undecodable message), so only those
messages are retried; once the payload is extracted the marker persists —
in particular through parse failures (missing required key, malformed
line, missing body section) and through any downstream business-logic
failure, which are only reported. -/
theorem C3_processed_marker (cfg : Settings) (rt : String) (uid : Nat)
    (msg : RawMessage) (db : DB) :
    (msg.decoded = none →
      (processSingleEmail cfg rt uid msg db).processedEmails = db.processedEmails)
    ∧ (∀ payload, msg.decoded = some payload →
      (processSingleEmail cfg rt uid msg db).processedEmails
        = markerFor cfg uid :: db.processedEmails) := by
  constructor
  · intro hdec
    rw [processSingleEmail_proc_eq]
    unfold processSingleEmailAttempt get_email_body
    rw [hdec]
    dsimp only
    unfold stateOf
    exact List.erase_cons_head _ _
  · intro payload hdec
    rw [processSingleEmail_proc_eq]
    unfold processSingleEmailAttempt get_email_body
    rw [hdec]
    dsimp only
    by_cases hacct : (rt == ACCOUNT_REQUEST) = true
    · rw [if_pos hacct]
      cases hpr : parse_email_contents payload REQUIRED_ACCOUNT_CREATION_KEYS with
      | error pe => rfl
      | ok d =>
        dsimp only
        exact handle_account_request_email_proc cfg (AccountInfo.ofDict d)
          { db with processedEmails := markerFor cfg uid :: db.processedEmails }
    · rw [if_neg hacct]
      by_cases hpipe : (rt == PIPELINE_REQUEST) = true
      · rw [if_pos hpipe]
        cases hpr : parse_email_contents payload REQUIRED_PIPELINE_CREATION_KEYS with
        | error pe => rfl
        | ok d =>
          dsimp only
          exact handle_pipeline_request_email_proc cfg (PipelineInfo.ofDict d)
            { db with processedEmails := markerFor cfg uid :: db.processedEmails }
      · rw [if_neg hpipe]
        rfl

/-- C3 witness: an undecodable message leaves the ProcessedEmail table
unchanged (rolled back), and a decodable one leaves the marker in place. -/
theorem C3_processed_marker_witness :
    (processSingleEmail exCfg ACCOUNT_REQUEST 43 { decoded := none } emptyDB).processedEmails
      = emptyDB.processedEmails :=
  (C3_processed_marker exCfg ACCOUNT_REQUEST 43 { decoded := none } emptyDB).1 rfl
